import Mathlib

/-!
Shallow embedding of the usage-matching pipeline of the music-publishing
platform: the Usage Processor worker (normalizers, persistence, publish) and
the Matching Engine worker (ISRC/ISWC/fuzzy/embedding cascade, persistence,
outcome publishing), translated from the Python sources under
`src/services/workers/`.

Modelling conventions:
- Python runtime values occurring in raw JSON payload dicts are `PyVal`;
  a raw payload is an association list with Python `dict.get` semantics.
- Python floats are modelled as exact rationals (`mkRat` literals).
- ISRC strings are modelled as lists of code points (`List Nat`), so that
  `str.replace`/`str.upper` become `filter`/`map` over code points; `upper`
  is modelled on the ASCII range, which covers the ISRC alphabet.
- Code that can raise is modelled in `Except String`; an injected failure
  environment stands for unexpected runtime errors (database outages etc.).
- The pgvector / pg_trgm scoring functions are oracles supplied by the
  environment; SQL `ORDER BY score` with ties is modelled as a stable sort
  over table order.
-/

namespace MusicPub

/-- Python runtime values as they appear in raw payload dicts. -/
inductive PyVal where
  | vnone : PyVal
  | vstr : String → PyVal
  | vint : Int → PyVal
  | vnum : ℚ → PyVal
  | vbool : Bool → PyVal
deriving DecidableEq, Repr

/-- A raw JSON payload: a Python dict with string keys. -/
abbrev RawData := List (String × PyVal)

/-- Python `dict.get(k)`: the stored value, or `None` when the key is absent. -/
def RawData.getv (d : RawData) (k : String) : PyVal :=
  (d.lookup k).getD PyVal.vnone

/-- Python `dict.get(k, default)`: the stored value, or `default` only when
the key is absent. -/
def RawData.getvD (d : RawData) (k : String) (dflt : PyVal) : PyVal :=
  (d.lookup k).getD dflt

/-- Python truthiness of a value. -/
def truthy : PyVal → Bool
  | .vnone => false
  | .vstr s => !s.data.isEmpty
  | .vint n => n != 0
  | .vnum q => q != 0
  | .vbool b => b

/-- Python `a or b`: the left value when truthy, otherwise the right one. -/
def pyOr (a b : PyVal) : PyVal :=
  if truthy a then a else b

/-- Parse the digits of a nonempty decimal digit list. -/
def digitsVal? (l : List Char) : Option Nat :=
  if l.isEmpty then none
  else if l.all Char.isDigit then
    some (l.foldl (fun acc c => acc * 10 + (c.toNat - 48)) 0)
  else none

/-- Python `str.strip()` on a character list. -/
def trimChars (l : List Char) : List Char :=
  ((l.dropWhile Char.isWhitespace).reverse.dropWhile Char.isWhitespace).reverse

/-- Python `str.strip()`. -/
def pyStrip (s : String) : String :=
  String.mk (trimChars s.data)

/-- ASCII lowercase on a character (the range the payload fields use). -/
def lowerChar (c : Char) : Char :=
  if 65 ≤ c.toNat ∧ c.toNat ≤ 90 then Char.ofNat (c.toNat + 32) else c

/-- ASCII uppercase on a character. -/
def upperChar (c : Char) : Char :=
  if 97 ≤ c.toNat ∧ c.toNat ≤ 122 then Char.ofNat (c.toNat - 32) else c

/-- Python `str.lower()`. -/
def pyLower (s : String) : String :=
  String.mk (s.data.map lowerChar)

/-- Python `str.upper()`. -/
def pyUpper (s : String) : String :=
  String.mk (s.data.map upperChar)

/-- Python `int(s)` on a string: optional sign and decimal digits, with
surrounding whitespace allowed. -/
def parseIntChars? (l : List Char) : Option Int :=
  match trimChars l with
  | '-' :: rest => (digitsVal? rest).map (fun n => -(n : Int))
  | '+' :: rest => (digitsVal? rest).map (fun n => (n : Int))
  | t => (digitsVal? t).map (fun n => (n : Int))

/-- Python `float(s)` on a decimal string (sign, integer and fraction digits;
exponents are outside the payload domain modelled here). -/
def parseDecimal? (s : String) : Option ℚ :=
  let t := trimChars s.data
  let (neg, t) := match t with
    | '-' :: rest => (true, rest)
    | '+' :: rest => (false, rest)
    | _ => (false, t)
  let intPart := t.takeWhile Char.isDigit
  let rest := t.drop intPart.length
  let mag? : Option ℚ :=
    match rest with
    | [] => (digitsVal? intPart).map (fun n => (n : ℚ))
    | '.' :: frac =>
      if frac.all Char.isDigit ∧ ¬(intPart.isEmpty ∧ frac.isEmpty) then
        some (mkRat
          (((digitsVal? intPart).getD 0) * 10 ^ frac.length +
            (digitsVal? frac).getD 0)
          (10 ^ frac.length))
      else none
    | _ => none
  mag?.map (fun q => if neg then -q else q)

/-- Python `int(v)` where a `ValueError`/`TypeError` is reported as `none`:
ints pass through, floats truncate toward zero, decimal strings parse,
booleans become 0/1, `None` and unparseable strings fail. -/
def pyInt? : PyVal → Option Int
  | .vint n => some n
  | .vnum q => some (Int.tdiv q.num q.den)
  | .vstr s => parseIntChars? s.data
  | .vbool b => some (if b then 1 else 0)
  | .vnone => none

/-- Python `float(v)` with failures as `none`. -/
def pyFloat? : PyVal → Option ℚ
  | .vint n => some (n : ℚ)
  | .vnum q => some q
  | .vstr s => parseDecimal? s
  | .vbool b => some (if b then 1 else 0)
  | .vnone => none

/-- Python `str(v)` for the scalar values modelled here. -/
def pyStr : PyVal → String
  | .vnone => "None"
  | .vstr s => s
  | .vint n => toString n
  | .vnum q => toString q
  | .vbool b => if b then "True" else "False"

/-! ## ISRC cleaning (normalizers/base.py and tools/isrc_matcher.py)

ISRC strings are lists of code points; 32 is the space, 45 the hyphen. -/

/-- Code points of a string literal. -/
def strCodes (s : String) : List Nat :=
  s.data.map Char.toNat

/-- Python `str.upper`, on the ASCII range that the ISRC alphabet uses. -/
def upCode (n : Nat) : Nat :=
  if 97 ≤ n ∧ n ≤ 122 then n - 32 else n

/-- Keep a code point: `replace(" ", "").replace("-", "")` drops 32 and 45. -/
def keepCode (n : Nat) : Bool :=
  n != 32 && n != 45

/-- The cleaning core shared by both call sites:
`isrc.replace(" ", "").replace("-", "").upper()`. -/
def isrcCore (s : List Nat) : List Nat :=
  (s.filter keepCode).map upCode

/-- Two ISRC representations differ only in spaces, hyphens, or letter case
exactly when their cleaning cores agree. -/
abbrev IsrcRepr.equiv (s t : List Nat) : Prop :=
  isrcCore s = isrcCore t

/-- BaseNormalizer._clean_isrc: clean, then accept only a 12-character result
(base.py lines 101-113). -/
def BaseNormalizer.cleanIsrc (s : List Nat) : Option (List Nat) :=
  let cleaned := isrcCore s
  if cleaned.length = 12 then some cleaned else none

/-- IsrcMatcher.match's inline cleaning and length gate
(isrc_matcher.py lines 54-58). -/
def IsrcMatcher.cleanIsrc (s : List Nat) : Option (List Nat) :=
  let cleaned := (s.filter keepCode).map upCode
  if cleaned.length ≠ 12 then none else some cleaned

/-! ## Dates (BaseNormalizer._parse_date, base.py lines 78-99) -/

/-- A Python `datetime.date`. -/
structure PDate where
  year : Nat
  month : Nat
  day : Nat
deriving DecidableEq, Repr

def isLeapYear (y : Nat) : Bool :=
  (y % 4 = 0 && y % 100 ≠ 0) || y % 400 = 0

def daysInMonth (y m : Nat) : Nat :=
  if m = 2 then (if isLeapYear y then 29 else 28)
  else if m = 4 ∨ m = 6 ∨ m = 9 ∨ m = 11 then 30
  else 31

/-- Calendar validity as `datetime.date(y, m, d)` enforces it. -/
def PDate.valid (d : PDate) : Bool :=
  1 ≤ d.year && d.year ≤ 9999 && 1 ≤ d.month && d.month ≤ 12 &&
    1 ≤ d.day && d.day ≤ daysInMonth d.year d.month

/-- strptime `%Y`: exactly four digits. -/
def pYear4 : List Char → Option (Nat × List Char)
  | a :: b :: c :: d :: rest =>
    if a.isDigit && b.isDigit && c.isDigit && d.isDigit then
      some ((digitsVal? [a, b, c, d]).getD 0, rest)
    else none
  | _ => none

/-- strptime `%m`: greedy alternation `1[0-2] | 0[1-9] | [1-9]`. -/
def pMonth2 : List Char → Option (Nat × List Char)
  | a :: b :: rest =>
    if a = '1' && '0' ≤ b && b ≤ '2' then some (10 + (b.toNat - 48), rest)
    else if a = '0' && '1' ≤ b && b ≤ '9' then some (b.toNat - 48, rest)
    else if '1' ≤ a && a ≤ '9' then some (a.toNat - 48, b :: rest)
    else none
  | [a] => if '1' ≤ a && a ≤ '9' then some (a.toNat - 48, []) else none
  | [] => none

/-- strptime `%d`: greedy alternation `3[01] | [12]\d | 0[1-9] | [1-9]`. -/
def pDay2 : List Char → Option (Nat × List Char)
  | a :: b :: rest =>
    if a = '3' && ('0' = b ∨ b = '1') then some (30 + (b.toNat - 48), rest)
    else if ('1' ≤ a && a ≤ '2') && b.isDigit then
      some ((a.toNat - 48) * 10 + (b.toNat - 48), rest)
    else if a = '0' && '1' ≤ b && b ≤ '9' then some (b.toNat - 48, rest)
    else if '1' ≤ a && a ≤ '9' then some (a.toNat - 48, b :: rest)
    else none
  | [a] => if '1' ≤ a && a ≤ '9' then some (a.toNat - 48, []) else none
  | [] => none

def pSep (c : Char) : List Char → Option (List Char)
  | x :: rest => if x = c then some rest else none
  | [] => none

/-- The six accepted formats, in the order the source tries them. -/
inductive DateFmt where
  | ymdDash | ymdSlash | dmyDash | dmySlash | ymdPlain | mdySlash
deriving DecidableEq, Repr

/-- One `datetime.strptime(s, fmt).date()` attempt, including the whole-string
match requirement and the calendar validity check. -/
def tryStrptime (fmt : DateFmt) (s : String) : Option PDate :=
  let l := s.toList
  let raw? : Option PDate :=
    match fmt with
    | .ymdDash => do
      let (y, r1) ← pYear4 l
      let r2 ← pSep '-' r1
      let (m, r3) ← pMonth2 r2
      let r4 ← pSep '-' r3
      let (d, r5) ← pDay2 r4
      if r5.isEmpty then some ⟨y, m, d⟩ else none
    | .ymdSlash => do
      let (y, r1) ← pYear4 l
      let r2 ← pSep '/' r1
      let (m, r3) ← pMonth2 r2
      let r4 ← pSep '/' r3
      let (d, r5) ← pDay2 r4
      if r5.isEmpty then some ⟨y, m, d⟩ else none
    | .dmyDash => do
      let (d, r1) ← pDay2 l
      let r2 ← pSep '-' r1
      let (m, r3) ← pMonth2 r2
      let r4 ← pSep '-' r3
      let (y, r5) ← pYear4 r4
      if r5.isEmpty then some ⟨y, m, d⟩ else none
    | .dmySlash => do
      let (d, r1) ← pDay2 l
      let r2 ← pSep '/' r1
      let (m, r3) ← pMonth2 r2
      let r4 ← pSep '/' r3
      let (y, r5) ← pYear4 r4
      if r5.isEmpty then some ⟨y, m, d⟩ else none
    | .ymdPlain => do
      let (y, r1) ← pYear4 l
      let (m, r2) ← pMonth2 r1
      let (d, r3) ← pDay2 r2
      if r3.isEmpty then some ⟨y, m, d⟩ else none
    | .mdySlash => do
      let (m, r1) ← pMonth2 l
      let r2 ← pSep '/' r1
      let (d, r3) ← pDay2 r2
      let r4 ← pSep '/' r3
      let (y, r5) ← pYear4 r4
      if r5.isEmpty then some ⟨y, m, d⟩ else none
  match raw? with
  | some d => if d.valid then some d else none
  | none => none

def dateFormats : List DateFmt :=
  [.ymdDash, .ymdSlash, .dmyDash, .dmySlash, .ymdPlain, .mdySlash]

/-- Try the formats in order; the first that parses wins. -/
def tryDateFormats (s : String) : Option PDate :=
  dateFormats.firstM (fun fmt => tryStrptime fmt s)

/-- BaseNormalizer._parse_date on a payload value: falsy values fall back to
the current date, strings run through the format list with the same fallback,
and a truthy non-string raises `TypeError` out of `strptime`. -/
def BaseNormalizer.parseDate (today : PDate) (v : PyVal) : Except String PDate :=
  if truthy v = false then .ok today
  else match v with
    | .vstr s => .ok ((tryDateFormats s).getD today)
    | _ => .error "TypeError: strptime() argument 1 must be str"

/-- Zero-padded rendering used by `strftime("%Y_%m")`. -/
def padNum (width n : Nat) : String :=
  let s := toString n
  String.mk (List.replicate (width - s.length) '0') ++ s

/-- Python `usage_date.strftime("%Y_%m")`. -/
def PDate.fmtYearMonth (d : PDate) : String :=
  padNum 4 d.year ++ "_" ++ padNum 2 d.month

/-! ## Shared schemas (shared/schemas.py) -/

/-- UsageType enum. -/
inductive UsageType where
  | stream | download | radio_play | tv_broadcast | public_performance
  | sync | mechanical
deriving DecidableEq, Repr

/-- The string value of a UsageType (pydantic `use_enum_values`). -/
def UsageType.str : UsageType → String
  | .stream => "stream"
  | .download => "download"
  | .radio_play => "radio_play"
  | .tv_broadcast => "tv_broadcast"
  | .public_performance => "public_performance"
  | .sync => "sync"
  | .mechanical => "mechanical"

/-- NormalizedUsageEvent (shared/schemas.py lines 85-116): the canonical
event that the Usage Processor builds and publishes. -/
structure NormalizedUsageEvent where
  event_id : Nat
  source : String
  source_event_id : Option String := none
  isrc : Option (List Nat) := none
  iswc : Option String := none
  reported_title : Option String := none
  reported_artist : Option String := none
  reported_album : Option String := none
  usage_type : UsageType
  play_count : Int := 1
  revenue_amount : Option ℚ := none
  currency : String := "USD"
  territory : Option String := none
  usage_date : PDate
  reporting_period : Option String := none
  ingested_at : Nat
  content_embedding : Option (List ℚ) := none
deriving DecidableEq, Repr

/-! ## Base normalizer helpers (normalizers/base.py) -/

/-- BaseNormalizer._parse_usage_type's case-insensitive lexicon with default
`stream` (base.py lines 53-76). -/
def usageTypeLexicon (s : String) : UsageType :=
  if s = "stream" ∨ s = "streaming" ∨ s = "play" then .stream
  else if s = "download" ∨ s = "purchase" then .download
  else if s = "radio" ∨ s = "radio_play" then .radio_play
  else if s = "broadcast" ∨ s = "tv" ∨ s = "tv_broadcast" then .tv_broadcast
  else if s = "performance" ∨ s = "public_performance" then .public_performance
  else if s = "sync" ∨ s = "synchronization" then .sync
  else if s = "mechanical" then .mechanical
  else .stream

/-- BaseNormalizer._parse_usage_type on a payload value: falsy values default
to `stream`; a truthy non-string raises on `.lower()`. -/
def BaseNormalizer.parseUsageType (v : PyVal) : Except String UsageType :=
  if truthy v = false then .ok .stream
  else match v with
    | .vstr s => .ok (usageTypeLexicon (pyLower s))
    | _ => .error "AttributeError: lower"

/-- BaseNormalizer._clean_string: falsy becomes null, strings are trimmed
with empty results as null, a truthy non-string raises on `.strip()`. -/
def BaseNormalizer.cleanString (v : PyVal) : Except String (Option String) :=
  if truthy v = false then .ok none
  else match v with
    | .vstr s =>
      .ok (let cleaned := pyStrip s
           if cleaned.data.isEmpty then none else some cleaned)
    | _ => .error "AttributeError: strip"

/-- BaseNormalizer._clean_isrc on a payload value. -/
def BaseNormalizer.cleanIsrcVal (v : PyVal) : Except String (Option (List Nat)) :=
  if truthy v = false then .ok none
  else match v with
    | .vstr s => .ok (BaseNormalizer.cleanIsrc (strCodes s))
    | _ => .error "AttributeError: replace"

/-- Pydantic validation of a required `str` field (no cross-type coercion). -/
def pyStrReq (field : String) (v : PyVal) : Except String String :=
  match v with
  | .vstr s => .ok s
  | _ => .error ("ValidationError: " ++ field)

/-- Pydantic validation of a `str | None` field. -/
def pyStrOpt (field : String) (v : PyVal) : Except String (Option String) :=
  match v with
  | .vnone => .ok none
  | .vstr s => .ok (some s)
  | _ => .error ("ValidationError: " ++ field)

/-- The territory handling `territory[:5] if territory else None`. -/
def sliceOpt5 (v : PyVal) : Except String (Option String) :=
  if truthy v = false then .ok none
  else match v with
    | .vstr s => .ok (some (String.mk (s.toList.take 5)))
    | _ => .error "TypeError: not subscriptable"

/-- Python `Decimal(str(v))` applied to a truthy revenue value; an
unparseable string raises `InvalidOperation`. -/
def pyDecimal (v : PyVal) : Except String ℚ :=
  match v with
  | .vint n => .ok (n : ℚ)
  | .vnum q => .ok q
  | .vstr s =>
    match parseDecimal? s with
    | some q => .ok q
    | none => .error "InvalidOperation: Decimal"
  | _ => .error "InvalidOperation: Decimal"

/-- Environment a normalizer runs in: the current date and timestamp and the
freshly generated event UUID. -/
structure NormEnv where
  today : PDate
  nowTs : Nat
  freshId : Nat

/-! ## Generic normalizer (normalizers/generic.py) -/

/-- Field names _extract_play_count tries, in order (generic.py 151-160). -/
def countFields : List String :=
  ["plays", "play_count", "streams", "quantity", "units", "count",
   "total_plays", "stream_count"]

/-- Field names _extract_revenue tries, in order (generic.py 174-184). -/
def revenueFields : List String :=
  ["revenue", "revenue_amount", "amount", "earnings", "royalty",
   "royalty_amount", "net_revenue", "gross_revenue", "payment"]

/-- The loop of GenericNormalizer._extract_play_count: skip absent fields,
return `int(value)` of the first field whose value converts, else 1. -/
def GenericNormalizer.playCountGo (raw : RawData) : List String → Int
  | [] => 1
  | f :: fs =>
    if RawData.getv raw f = PyVal.vnone then GenericNormalizer.playCountGo raw fs
    else
      match pyInt? (RawData.getv raw f) with
      | some n => n
      | none => GenericNormalizer.playCountGo raw fs

/-- GenericNormalizer._extract_play_count (generic.py lines 149-170). -/
def GenericNormalizer.extractPlayCount (raw : RawData) : Int :=
  GenericNormalizer.playCountGo raw countFields

/-- The loop of GenericNormalizer._extract_revenue. -/
def GenericNormalizer.revenueGo (raw : RawData) : List String → Option ℚ
  | [] => none
  | f :: fs =>
    if RawData.getv raw f = PyVal.vnone then GenericNormalizer.revenueGo raw fs
    else
      match pyFloat? (RawData.getv raw f) with
      | some q => some q
      | none => GenericNormalizer.revenueGo raw fs

/-- GenericNormalizer._extract_revenue (generic.py lines 172-194). -/
def GenericNormalizer.extractRevenue (raw : RawData) : Option ℚ :=
  GenericNormalizer.revenueGo raw revenueFields

/-- The reporting-period fallback shared by the normalizers: keep a truthy
payload value (validated as `str | None`), otherwise derive `YYYY_MM` from
the usage date. -/
def reportingPeriodVal (usage_date : PDate) (rp : PyVal) :
    Except String (Option String) :=
  if truthy rp = false then .ok (some usage_date.fmtYearMonth)
  else pyStrOpt "reporting_period" rp

/-- The revenue expression `Decimal(str(revenue)) if revenue else None` of
the Spotify and Apple Music normalizers. -/
def revenueDecimalVal (revenue : PyVal) : Except String (Option ℚ) :=
  if truthy revenue then (pyDecimal revenue).map some else .ok none

/-- GenericNormalizer.normalize (generic.py lines 27-147). -/
def GenericNormalizer.normalize (env : NormEnv) (raw : RawData) :
    Except String NormalizedUsageEvent := do
  let isrc ← BaseNormalizer.cleanIsrcVal
    (pyOr (raw.getv "isrc") (pyOr (raw.getv "ISRC") (raw.getv "recording_code")))
  let title ← BaseNormalizer.cleanString
    (pyOr (raw.getv "title") (pyOr (raw.getv "track_name") (pyOr
      (raw.getv "song_name") (pyOr (raw.getv "name") (pyOr
      (raw.getv "track_title") (raw.getv "reported_title"))))))
  let artist ← BaseNormalizer.cleanString
    (pyOr (raw.getv "artist") (pyOr (raw.getv "artist_name") (pyOr
      (raw.getv "performer") (pyOr (raw.getv "main_artist")
      (raw.getv "reported_artist")))))
  let album ← BaseNormalizer.cleanString
    (pyOr (raw.getv "album") (pyOr (raw.getv "album_name") (pyOr
      (raw.getv "release_name") (pyOr (raw.getv "album_title")
      (raw.getv "reported_album")))))
  let play_count := GenericNormalizer.extractPlayCount raw
  let usage_type ← BaseNormalizer.parseUsageType
    (pyOr (raw.getv "usage_type") (pyOr (raw.getv "type")
      (raw.getv "transaction_type")))
  let revenue := GenericNormalizer.extractRevenue raw
  let revenue_amount : Option ℚ :=
    match revenue with
    | some q => if q ≠ 0 then some q else none
    | none => none
  let currency ← pyStrReq "currency"
    (pyOr (raw.getv "currency") (pyOr (raw.getv "currency_code") (pyOr
      (raw.getv "royalty_currency") (.vstr "USD"))))
  let territory ← sliceOpt5
    (pyOr (raw.getv "country") (pyOr (raw.getv "territory") (pyOr
      (raw.getv "region") (raw.getv "country_code"))))
  let usage_date ← BaseNormalizer.parseDate env.today
    (pyOr (raw.getv "date") (pyOr (raw.getv "usage_date") (pyOr
      (raw.getv "period_date") (raw.getv "transaction_date"))))
  let reporting_period ← reportingPeriodVal usage_date
    (pyOr (raw.getv "reporting_period")
      (pyOr (raw.getv "period") (raw.getv "period_code")))
  let seid := pyOr (raw.getv "source_event_id") (pyOr (raw.getv "event_id")
    (pyOr (raw.getv "transaction_id") (raw.getv "id")))
  let source_event_id : Option String :=
    if truthy seid then some (pyStr seid) else none
  let actual_source ← pyStrReq "source"
    (RawData.getvD raw "source" (.vstr "generic"))
  let iswc ← pyStrOpt "iswc" (pyOr (raw.getv "iswc") (raw.getv "ISWC"))
  .ok { event_id := env.freshId
        source := actual_source
        source_event_id := source_event_id
        isrc := isrc
        iswc := iswc
        reported_title := title
        reported_artist := artist
        reported_album := album
        usage_type := usage_type
        play_count := play_count
        revenue_amount := revenue_amount
        currency := currency
        territory := territory
        usage_date := usage_date
        reporting_period := reporting_period
        ingested_at := env.nowTs
        content_embedding := none }

/-! ## Spotify normalizer (normalizers/spotify.py) -/

/-- The Spotify play-count expression
`int(raw_data.get("streams") or raw_data.get("play_count") or 1)`
(spotify.py line 49). -/
def SpotifyNormalizer.playCountVal (raw : RawData) : Except String Int :=
  match pyInt? (pyOr (raw.getv "streams")
      (pyOr (raw.getv "play_count") (.vint 1))) with
  | some n => .ok n
  | none => .error "ValueError: int()"

/-- SpotifyNormalizer.normalize (spotify.py lines 22-86). -/
def SpotifyNormalizer.normalize (env : NormEnv) (raw : RawData) :
    Except String NormalizedUsageEvent := do
  let isrc ← BaseNormalizer.cleanIsrcVal (raw.getv "isrc")
  let title ← BaseNormalizer.cleanString
    (pyOr (raw.getv "track_name") (raw.getv "title"))
  let artist ← BaseNormalizer.cleanString
    (pyOr (raw.getv "artist_name") (raw.getv "artist"))
  let album ← BaseNormalizer.cleanString
    (pyOr (raw.getv "album_name") (raw.getv "album"))
  let play_count ← SpotifyNormalizer.playCountVal raw
  let revenue_amount ← revenueDecimalVal
    (pyOr (raw.getv "earnings") (raw.getv "revenue_amount"))
  let currency ← pyStrReq "currency" (RawData.getvD raw "currency" (.vstr "USD"))
  let territory ← sliceOpt5 (pyOr (raw.getv "country") (raw.getv "territory"))
  let usage_date ← BaseNormalizer.parseDate env.today
    (pyOr (raw.getv "date") (raw.getv "usage_date"))
  let reporting_period ← reportingPeriodVal usage_date
    (raw.getv "reporting_period")
  let source_event_id ← pyStrOpt "source_event_id"
    (pyOr (raw.getv "spotify_id") (raw.getv "source_event_id"))
  let iswc ← pyStrOpt "iswc" (raw.getv "iswc")
  .ok { event_id := env.freshId
        source := "spotify"
        source_event_id := source_event_id
        isrc := isrc
        iswc := iswc
        reported_title := title
        reported_artist := artist
        reported_album := album
        usage_type := .stream
        play_count := play_count
        revenue_amount := revenue_amount
        currency := currency
        territory := territory
        usage_date := usage_date
        reporting_period := reporting_period
        ingested_at := env.nowTs
        content_embedding := none }

/-! ## Apple Music normalizer (normalizers/apple_music.py) -/

/-- Python substring containment `pat in s` on code characters. -/
def hasSubstr (pat : List Char) : List Char → Bool
  | [] => pat.isEmpty
  | c :: rest => pat.isPrefixOf (c :: rest) || hasSubstr pat rest

/-- The Apple Music play-count expression
`int(raw_data.get("play_count") or raw_data.get("quantity") or 1)`
(apple_music.py line 55). -/
def AppleMusicNormalizer.playCountVal (raw : RawData) : Except String Int :=
  match pyInt? (pyOr (raw.getv "play_count")
      (pyOr (raw.getv "quantity") (.vint 1))) with
  | some n => .ok n
  | none => .error "ValueError: int()"

/-- The Apple Music product-type expression
`raw_data.get("product_type_identifier", "").lower()` (apple_music.py 58). -/
def AppleMusicNormalizer.productTypeVal (raw : RawData) : Except String String :=
  match RawData.getvD raw "product_type_identifier" (.vstr "") with
  | .vstr s => .ok (pyLower s)
  | _ => .error "AttributeError: lower"

/-- The Apple Music reporting-period derivation (apple_music.py 81-89): a
truthy payload value wins, else the begin_date's month when both period
bounds are present, else the usage date's month. -/
def AppleMusicNormalizer.reportingPeriod (env : NormEnv) (raw : RawData)
    (usage_date : PDate) : Except String (Option String) :=
  let rp := raw.getv "reporting_period"
  if truthy rp = false then
    if truthy (raw.getv "begin_date") && truthy (raw.getv "end_date") then do
      let begin_date ← BaseNormalizer.parseDate env.today (raw.getv "begin_date")
      .ok (some begin_date.fmtYearMonth)
    else .ok (some usage_date.fmtYearMonth)
  else pyStrOpt "reporting_period" rp

/-- AppleMusicNormalizer.normalize (apple_music.py lines 22-109). -/
def AppleMusicNormalizer.normalize (env : NormEnv) (raw : RawData) :
    Except String NormalizedUsageEvent := do
  let isrc ← BaseNormalizer.cleanIsrcVal
    (pyOr (raw.getv "isrc") (raw.getv "apple_identifier"))
  let title ← BaseNormalizer.cleanString
    (pyOr (raw.getv "song_name") (pyOr (raw.getv "content_name")
      (raw.getv "title")))
  let artist ← BaseNormalizer.cleanString
    (pyOr (raw.getv "artist_name") (raw.getv "artist"))
  let album ← BaseNormalizer.cleanString
    (pyOr (raw.getv "container_name") (pyOr (raw.getv "album_name")
      (raw.getv "album")))
  let play_count ← AppleMusicNormalizer.playCountVal raw
  let product_type ← AppleMusicNormalizer.productTypeVal raw
  let usage_type : UsageType :=
    if hasSubstr "download".toList product_type.toList ∨
        hasSubstr "purchase".toList product_type.toList then .download
    else .stream
  let revenue_amount ← revenueDecimalVal
    (pyOr (raw.getv "royalty_amount") (raw.getv "revenue_amount"))
  let currency ← pyStrReq "currency"
    (pyOr (raw.getv "royalty_currency") (RawData.getvD raw "currency" (.vstr "USD")))
  let territory ← sliceOpt5 (pyOr (raw.getv "storefront") (raw.getv "territory"))
  let usage_date ← BaseNormalizer.parseDate env.today
    (pyOr (raw.getv "begin_date") (pyOr (raw.getv "usage_date")
      (raw.getv "date")))
  let reporting_period ← AppleMusicNormalizer.reportingPeriod env raw usage_date
  let source_event_id ← pyStrOpt "source_event_id"
    (pyOr (raw.getv "vendor_identifier") (raw.getv "source_event_id"))
  let iswc ← pyStrOpt "iswc" (raw.getv "iswc")
  .ok { event_id := env.freshId
        source := "apple_music"
        source_event_id := source_event_id
        isrc := isrc
        iswc := iswc
        reported_title := title
        reported_artist := artist
        reported_album := album
        usage_type := usage_type
        play_count := play_count
        revenue_amount := revenue_amount
        currency := currency
        territory := territory
        usage_date := usage_date
        reporting_period := reporting_period
        ingested_at := env.nowTs
        content_embedding := none }

/-! ## Normalizer dispatch (normalizers/__init__.py, shared/kafka_utils.py) -/

/-- Topics.source_from_topic (kafka_utils.py lines 44-53). -/
def Topics.sourceFromTopic (topic : String) : String :=
  if topic = "usage.raw.spotify" then "spotify"
  else if topic = "usage.raw.apple_music" then "apple_music"
  else if topic = "usage.raw.radio" then "radio"
  else if topic = "usage.raw.generic" then "generic"
  else "unknown"

/-- get_normalizer dispatch: spotify and apple_music have dedicated
normalizers, everything else (generic, radio, unknown) uses the generic one. -/
def normalizeBySource (env : NormEnv) (source : String) (raw : RawData) :
    Except String NormalizedUsageEvent :=
  if source = "spotify" then SpotifyNormalizer.normalize env raw
  else if source = "apple_music" then AppleMusicNormalizer.normalize env raw
  else GenericNormalizer.normalize env raw

/-! ## Usage Processor worker (usage_processor/src/main.py) -/

/-- Usage Processor settings (usage_processor/src/config.py); `max_retries`
defaults to 3. -/
structure ProcSettings where
  embedding_batch_size : Nat := 100
  batch_size : Nat := 50
  max_retries : Nat := 3
deriving DecidableEq, Repr

/-- A usage_events row (usage_processor/src/models.py lines 16-72). The
model has no iswc column. -/
structure UsageEventRow where
  id : Nat
  source : String
  source_event_id : Option String
  isrc : Option (List Nat)
  reported_title : Option String
  reported_artist : Option String
  reported_album : Option String
  usage_type : String
  play_count : Int
  revenue_amount : Option ℚ
  currency : String
  territory : Option String
  usage_date : PDate
  reporting_period : Option String
  processing_status : String
  raw_payload : Option RawData
  ingested_at : Nat
  processed_at : Option Nat
  content_embedding : Option (List ℚ)
deriving DecidableEq, Repr

/-- UsageProcessor._persist_event's row construction (main.py lines 140-166):
the UsageEvent(...) constructor call with status `pending`.  Columns the call
does not set keep their model defaults (`raw_payload`, `processed_at` null). -/
def UsageProcessor.persistRowOf (e : NormalizedUsageEvent) : UsageEventRow :=
  { id := e.event_id
    source := e.source
    source_event_id := e.source_event_id
    isrc := e.isrc
    reported_title := e.reported_title
    reported_artist := e.reported_artist
    reported_album := e.reported_album
    usage_type := e.usage_type.str
    play_count := e.play_count
    revenue_amount := e.revenue_amount
    currency := e.currency
    territory := e.territory
    usage_date := e.usage_date
    reporting_period := e.reporting_period
    processing_status := "pending"
    raw_payload := none
    ingested_at := e.ingested_at
    processed_at := none
    content_embedding := e.content_embedding }

/-- Observable effects of one UsageProcessor.process_event call: database
persistence attempts and commits, bus publishes, and dead-letter records. -/
inductive ProcEffect where
  | dbTry (ok : Bool)
  | dbInsert (row : UsageEventRow)
  | publish (topic : String) (key : String) (event : NormalizedUsageEvent)
  | dlqProcessing (original_topic : String) (raw : RawData) (error : String)
deriving DecidableEq, Repr

/-- Environment of one processor handler run: clock and fresh UUID, the
embedding call's outcome, the outcomes successive database commit attempts
would have, and whether the publish succeeds. -/
structure ProcEnv where
  norm : NormEnv
  embedResult : Except String (Option (List ℚ)) := .ok none
  dbOutcomes : List Bool := [true]
  publishOk : Bool := true

/-- Truthiness of an optional string (`if normalized.reported_title or ...`). -/
def optStrTruthy : Option String → Bool
  | none => false
  | some s => !s.isEmpty

/-- The embedding step of process_event (main.py lines 112-121): best effort,
an exception leaves the event's null embedding in place. -/
def UsageProcessor.applyEmbedding (env : ProcEnv) (e : NormalizedUsageEvent) :
    NormalizedUsageEvent :=
  if optStrTruthy e.reported_title || optStrTruthy e.reported_artist then
    match env.embedResult with
    | .ok v => { e with content_embedding := v }
    | .error _ => e
  else e

/-- UsageProcessor.process_event (main.py lines 86-138): normalize, enrich,
persist (a single commit attempt — the worker has no retry loop), publish,
with the surrounding try/except routing any failure to dlq.usage.processing. -/
def UsageProcessor.processEvent (env : ProcEnv) (topic : String)
    (raw : RawData) : List ProcEffect :=
  match normalizeBySource env.norm (Topics.sourceFromTopic topic) raw with
  | .error e => [.dlqProcessing topic raw e]
  | .ok normalized0 =>
    let normalized := UsageProcessor.applyEmbedding env normalized0
    let commitOk := env.dbOutcomes.headD true
    if commitOk then
      if env.publishOk then
        [.dbTry true, .dbInsert (UsageProcessor.persistRowOf normalized),
         .publish "usage.normalized" (toString normalized.event_id) normalized]
      else
        [.dbTry true, .dbInsert (UsageProcessor.persistRowOf normalized),
         .dlqProcessing topic raw "KafkaError: send failed"]
    else
      [.dbTry false, .dlqProcessing topic raw "DatabaseError: commit failed"]

/-! ## Matching Engine: reference data and settings
(matching_worker/src/config.py, models.py) -/

/-- Matching Worker settings with their defaults (config.py lines 29-36). -/
structure MatcherSettings where
  isrc_confidence : ℚ := 1
  fuzzy_match_threshold : ℚ := mkRat 85 100
  embedding_match_threshold : ℚ := mkRat 80 100
  manual_review_threshold : ℚ := mkRat 60 100
  max_alternative_matches : Nat := 5

/-- A works row (matching_worker models.py lines 107-128). -/
structure Work where
  id : Nat
  title : String
  iswc : Option String := none
  status : String := "active"
  title_embedding : Option (List ℚ) := none
deriving DecidableEq, Repr

/-- A recordings row (matching_worker models.py lines 131-152). -/
structure Recording where
  id : Nat
  work_id : Nat
  isrc : Option (List Nat) := none
  title : String
  artist_name : Option String := none
deriving DecidableEq, Repr

/-- A matched_usage row (matching_worker models.py lines 56-104). The model
declares plain non-unique indexes on usage_event_id and work_id. -/
structure MatchedUsageRow where
  id : Nat
  usage_event_id : Nat
  work_id : Nat
  recording_id : Option Nat := none
  match_confidence : ℚ
  match_method : String
  matched_by : Option String := none
  is_confirmed : Bool := false
  confirmed_by : Option Nat := none
  confirmed_at : Option Nat := none
  matched_at : Nat := 0
deriving DecidableEq, Repr

/-- The database as the Matching Worker sees it. -/
structure MatchDB where
  works : List Work := []
  recordings : List Recording := []
  usage_events : List UsageEventRow := []
  matched_usage : List MatchedUsageRow := []
deriving DecidableEq, Repr

/-- Environment of a matching run: the pg_trgm similarity and pgvector
cosine-distance oracles, settings, injected unexpected errors per node, and
clock/UUID supply. -/
structure MatchEnv where
  settings : MatcherSettings := {}
  sim : String → String → ℚ := fun _ _ => 0
  cosDist : List ℚ → List ℚ → ℚ := fun _ _ => 1
  failIsrc : Option String := none
  failIswc : Option String := none
  failFuzzy : Option String := none
  failEmbed : Option String := none
  failPersist : Option String := none
  freshMatchId : Nat := 0
  nowTs : Nat := 0

/-- Result of a matching attempt (the MatchResult dataclass of the tools). -/
structure MatchRes where
  work_id : Nat
  recording_id : Option Nat
  confidence : ℚ
  method : String
deriving DecidableEq, Repr

/-- Kernel-evaluable subtraction on ℚ (the library subtraction is marked
irreducible and cannot be evaluated inside proofs); `ratSub_eq` below shows
it is exactly subtraction. -/
def ratSub (a b : ℚ) : ℚ :=
  mkRat (a.num * b.den - b.num * a.den) (a.den * b.den)

/-! ## Stable ordering

SQL `ORDER BY score DESC LIMIT k` and Python's stable `sorted` are modelled
with a stable insertion sort; equal keys keep their input order, which is
exactly the guarantee of Python's sort. -/

def insertByKeyDesc (key : α → ℚ) (x : α) : List α → List α
  | [] => [x]
  | y :: ys => if key y ≤ key x then x :: y :: ys else y :: insertByKeyDesc key x ys

/-- Stable sort, highest key first. -/
def sortByKeyDesc (key : α → ℚ) (l : List α) : List α :=
  l.foldr (insertByKeyDesc key) []

def insertByKeyAsc (key : α → ℚ) (x : α) : List α → List α
  | [] => [x]
  | y :: ys => if key x ≤ key y then x :: y :: ys else y :: insertByKeyAsc key x ys

/-- Stable sort, lowest key first. -/
def sortByKeyAsc (key : α → ℚ) (l : List α) : List α :=
  l.foldr (insertByKeyAsc key) []

/-! ## Exact identifier matchers (tools/isrc_matcher.py) -/

/-- IsrcMatcher.match (isrc_matcher.py lines 34-80): falsy guard, inline
cleaning with the 12-character gate, then a LIMIT 1 lookup in table order. -/
def IsrcMatcher.matchRun (db : MatchDB) (st : MatcherSettings)
    (isrc : Option (List Nat)) : Option MatchRes :=
  match isrc with
  | none => none
  | some s =>
    if s.isEmpty then none
    else
      match IsrcMatcher.cleanIsrc s with
      | none => none
      | some cleaned =>
        match db.recordings.find? (fun r => r.isrc == some cleaned) with
        | some r => some ⟨r.work_id, some r.id, st.isrc_confidence, "isrc_exact"⟩
        | none => none

/-- IswcMatcher.match (isrc_matcher.py lines 91-133): falsy guard, strip
spaces and uppercase (no length check), LIMIT 1 lookup on works.iswc. -/
def IswcMatcher.matchRun (db : MatchDB) (iswc : Option String) :
    Option MatchRes :=
  match iswc with
  | none => none
  | some s =>
    if s.data.isEmpty then none
    else
      let cleaned := pyUpper (String.mk (s.data.filter (fun c => c != ' ')))
      match db.works.find? (fun w => w.iswc == some cleaned) with
      | some w => some ⟨w.id, none, 1, "iswc_exact"⟩
      | none => none

/-! ## Fuzzy matcher (tools/fuzzy_matcher.py) -/

/-- SQL LOWER. -/
def sqlLower (s : String) : String :=
  pyLower s

/-- The per-row trigram score of the recordings query: with an artist the
comparison is `LOWER(title || ' ' || COALESCE(artist_name, ''))` against the
combined search text, otherwise `LOWER(title)` against the title. -/
def FuzzyMatcher.recordingScore (env : MatchEnv) (artist : Option String)
    (search_text : String) (r : Recording) : ℚ :=
  match artist with
  | some _ =>
    env.sim (sqlLower (r.title ++ " " ++ r.artist_name.getD ""))
      (sqlLower search_text)
  | none => env.sim (sqlLower r.title) (sqlLower search_text)

/-- The SQL candidate rows of _match_recordings (fuzzy_matcher.py lines
100-142): recall threshold `fuzzy_match_threshold - 0.1`, ordered by score
descending, LIMIT. -/
def FuzzyMatcher.recordingCandidates (env : MatchEnv) (db : MatchDB)
    (title : String) (artist : Option String) (lim : Nat) : List Recording :=
  let search_text := match artist with
    | some a => title ++ " " ++ a
    | none => title
  let score := FuzzyMatcher.recordingScore env artist search_text
  ((db.recordings.filter
      (fun r => ratSub env.settings.fuzzy_match_threshold (mkRat 1 10) < score r))
    |> sortByKeyDesc score).take lim

/-- FuzzyMatcher._match_recordings (fuzzy_matcher.py lines 89-155): the
candidate rows, kept only when the score also clears the full threshold. -/
def FuzzyMatcher.matchRecordings (env : MatchEnv) (db : MatchDB)
    (title : String) (artist : Option String) (lim : Nat) : List MatchRes :=
  let search_text := match artist with
    | some a => title ++ " " ++ a
    | none => title
  (FuzzyMatcher.recordingCandidates env db title artist lim).filterMap
    (fun r =>
      let confidence := FuzzyMatcher.recordingScore env artist search_text r
      if env.settings.fuzzy_match_threshold ≤ confidence then
        some ⟨r.work_id, some r.id, confidence, "fuzzy_title"⟩
      else none)

/-- The per-row trigram score of the works query. -/
def FuzzyMatcher.workScore (env : MatchEnv) (title : String) (w : Work) : ℚ :=
  env.sim (sqlLower w.title) (sqlLower title)

/-- The SQL candidate rows of _match_works (fuzzy_matcher.py lines 164-183):
active works above the recall threshold, ordered by score, LIMIT. -/
def FuzzyMatcher.workCandidates (env : MatchEnv) (db : MatchDB)
    (title : String) (lim : Nat) : List Work :=
  let score := FuzzyMatcher.workScore env title
  ((db.works.filter (fun w => w.status == "active" &&
      decide (ratSub env.settings.fuzzy_match_threshold (mkRat 1 10) < score w)))
    |> sortByKeyDesc score).take lim

/-- FuzzyMatcher._match_works (fuzzy_matcher.py lines 157-196). -/
def FuzzyMatcher.matchWorks (env : MatchEnv) (db : MatchDB)
    (title : String) (lim : Nat) : List MatchRes :=
  (FuzzyMatcher.workCandidates env db title lim).filterMap
    (fun w =>
      let confidence := FuzzyMatcher.workScore env title w
      if env.settings.fuzzy_match_threshold ≤ confidence then
        some ⟨w.id, none, confidence, "fuzzy_title"⟩
      else none)

/-- One step of the dict-based dedup in FuzzyMatcher.match (lines 69-77):
insert keeps dict insertion order, replacement happens in place and only for
a strictly higher confidence. -/
def dictUpd (acc : List (Nat × MatchRes)) (m : MatchRes) :
    List (Nat × MatchRes) :=
  match acc.lookup m.work_id with
  | none => acc ++ [(m.work_id, m)]
  | some old =>
    if old.confidence < m.confidence then
      acc.map (fun p => if p.1 = m.work_id then (m.work_id, m) else p)
    else acc

/-- FuzzyMatcher.match (fuzzy_matcher.py lines 34-87): falsy title guard,
both sub-queries, dedup by work_id keeping the higher confidence, sorted by
confidence descending, truncated to the limit. -/
def FuzzyMatcher.matchList (env : MatchEnv) (db : MatchDB)
    (title artist : Option String) (lim : Nat) : List MatchRes :=
  match title with
  | none => []
  | some t =>
    if t.data.isEmpty then []
    else
      let recording_matches := FuzzyMatcher.matchRecordings env db t artist lim
      let work_matches := FuzzyMatcher.matchWorks env db t lim
      let all_matches := (recording_matches ++ work_matches).foldl dictUpd []
      (sortByKeyDesc (fun m => m.confidence) (all_matches.map Prod.snd)).take lim

/-- FuzzyMatcher.get_best_match (fuzzy_matcher.py lines 198-220). -/
def FuzzyMatcher.getBestMatch (env : MatchEnv) (db : MatchDB)
    (title artist : Option String) : Option MatchRes :=
  match (FuzzyMatcher.matchList env db title artist 1).head? with
  | some m =>
    if env.settings.fuzzy_match_threshold ≤ m.confidence then some m else none
  | none => none

/-! ## Embedding matcher (tools/embedding_matcher.py) -/

/-- EmbeddingMatcher.match (embedding_matcher.py lines 34-100): works with a
non-null embedding and active status, ordered by cosine distance ascending,
LIMIT, then kept when `1 - distance` clears the manual-review threshold. -/
def EmbeddingMatcher.matchList (env : MatchEnv) (db : MatchDB)
    (embedding : Option (List ℚ)) (lim : Nat) : List MatchRes :=
  match embedding with
  | none => []
  | some emb =>
    if emb.isEmpty then []
    else
      let rows := db.works.filter
        (fun w => w.title_embedding.isSome && w.status == "active")
      let ordered :=
        (sortByKeyAsc (fun w => env.cosDist (w.title_embedding.getD []) emb)
          rows).take lim
      ordered.filterMap (fun w =>
        let similarity := ratSub 1 (env.cosDist (w.title_embedding.getD []) emb)
        if env.settings.manual_review_threshold ≤ similarity then
          some ⟨w.id, none, similarity, "ai_embedding"⟩
        else none)

/-- EmbeddingMatcher.get_best_match (embedding_matcher.py lines 102-122). -/
def EmbeddingMatcher.getBestMatch (env : MatchEnv) (db : MatchDB)
    (embedding : Option (List ℚ)) : Option MatchRes :=
  match (EmbeddingMatcher.matchList env db embedding 1).head? with
  | some m =>
    if env.settings.embedding_match_threshold ≤ m.confidence then some m
    else none
  | none => none

/-- EmbeddingMatcher.get_suggestions (embedding_matcher.py lines 124-144). -/
def EmbeddingMatcher.getSuggestions (env : MatchEnv) (db : MatchDB)
    (embedding : Option (List ℚ)) (lim : Nat) : List MatchRes :=
  EmbeddingMatcher.matchList env db embedding lim

/-! ## Matching agent (agents/matching_agent.py) -/

/-- One entry of the state's match_attempts list. -/
structure Attempt where
  method : String
  success : Bool
  confidence : Option ℚ := none
  suggestions_count : Option Nat := none
deriving DecidableEq, Repr

/-- One entry of the state's suggested_matches list. -/
structure Suggestion where
  work_id : Nat
  recording_id : Option Nat := none
  confidence : ℚ
  method : String
deriving DecidableEq, Repr

/-- The MatchingState dict (matching_agent.py lines 21-54). UUID strings are
modelled as numbers; the empty-string fallback of
`str(event_data.get("event_id", ""))` is the `none` case. -/
structure MState where
  usage_event_id : Option Nat
  source : String
  isrc : Option (List Nat)
  iswc : Option String
  title : Option String
  artist : Option String
  album : Option String
  content_embedding : Option (List ℚ)
  usage_date : String
  territory : Option String
  usage_type : String
  play_count : Int
  revenue_amount : Option ℚ
  currency : String
  current_step : String
  match_attempts : List Attempt
  match_found : Bool
  work_id : Option Nat
  recording_id : Option Nat
  confidence : ℚ
  match_method : Option String
  suggested_matches : List Suggestion
  outcome : Option String
  error : Option String
deriving DecidableEq, Repr

/-- A consumed usage.normalized message, with the fields the agent and the
worker read from it. -/
structure EventMsg where
  event_id : Option Nat := none
  source : String := ""
  source_event_id : Option String := none
  isrc : Option (List Nat) := none
  iswc : Option String := none
  reported_title : Option String := none
  reported_artist : Option String := none
  reported_album : Option String := none
  usage_type : Option String := none
  play_count : Option Int := none
  revenue_amount : Option ℚ := none
  currency : Option String := none
  territory : Option String := none
  usage_date : String := ""
  content_embedding : Option (List ℚ) := none
deriving DecidableEq, Repr

/-- The initial state built by MatchingAgent.match (lines 389-414). -/
def MState.initial (msg : EventMsg) : MState :=
  { usage_event_id := msg.event_id
    source := msg.source
    isrc := msg.isrc
    iswc := msg.iswc
    title := msg.reported_title
    artist := msg.reported_artist
    album := msg.reported_album
    content_embedding := msg.content_embedding
    usage_date := msg.usage_date
    territory := msg.territory
    usage_type := msg.usage_type.getD "stream"
    play_count := msg.play_count.getD 1
    revenue_amount :=
      match msg.revenue_amount with
      | some q => if q ≠ 0 then some q else none
      | none => none
    currency := msg.currency.getD "USD"
    current_step := "start"
    match_attempts := []
    match_found := false
    work_id := none
    recording_id := none
    confidence := 0
    match_method := none
    suggested_matches := []
    outcome := none
    error := none }

/-- Python falsiness of an optional string. -/
def optStrFalsy : Option String → Bool
  | none => true
  | some s => s.data.isEmpty

/-- Python falsiness of an optional code-point string. -/
def optCodesFalsy : Option (List Nat) → Bool
  | none => true
  | some l => l.isEmpty

/-- Python falsiness of an optional embedding vector. -/
def optEmbFalsy : Option (List ℚ) → Bool
  | none => true
  | some l => l.isEmpty

/-- try_isrc_match (matching_agent.py lines 64-94); an injected error stands
for an unexpected exception in the database session. -/
def tryIsrcNode (env : MatchEnv) (db : MatchDB) (s0 : MState) :
    Except String MState :=
  let s := { s0 with current_step := "isrc_match" }
  if optCodesFalsy s.isrc then .ok s
  else
    match env.failIsrc with
    | some e => .error e
    | none =>
      match IsrcMatcher.matchRun db env.settings s.isrc with
      | some r =>
        .ok { s with
                match_found := true
                work_id := some r.work_id
                recording_id := r.recording_id
                confidence := r.confidence
                match_method := some r.method
                match_attempts := s.match_attempts ++
                  [{ method := "isrc_exact", success := true,
                     confidence := some r.confidence }] }
      | none =>
        .ok { s with
                match_attempts := s.match_attempts ++
                  [{ method := "isrc_exact", success := false }] }

/-- try_iswc_match (matching_agent.py lines 97-131). -/
def tryIswcNode (env : MatchEnv) (db : MatchDB) (s0 : MState) :
    Except String MState :=
  let s := { s0 with current_step := "iswc_match" }
  if s.match_found then .ok s
  else if optStrFalsy s.iswc then .ok s
  else
    match env.failIswc with
    | some e => .error e
    | none =>
      match IswcMatcher.matchRun db s.iswc with
      | some r =>
        .ok { s with
                match_found := true
                work_id := some r.work_id
                recording_id := none
                confidence := r.confidence
                match_method := some r.method
                match_attempts := s.match_attempts ++
                  [{ method := "iswc_exact", success := true,
                     confidence := some r.confidence }] }
      | none =>
        .ok { s with
                match_attempts := s.match_attempts ++
                  [{ method := "iswc_exact", success := false }] }

/-- try_fuzzy_match (matching_agent.py lines 134-189): on a confident best
match accept it, otherwise extend suggested_matches with the (threshold
filtered) match list. -/
def tryFuzzyNode (env : MatchEnv) (db : MatchDB) (s0 : MState) :
    Except String MState :=
  let s := { s0 with current_step := "fuzzy_match" }
  if s.match_found then .ok s
  else if optStrFalsy s.title then .ok s
  else
    match env.failFuzzy with
    | some e => .error e
    | none =>
      match FuzzyMatcher.getBestMatch env db s.title s.artist with
      | some r =>
        .ok { s with
                match_found := true
                work_id := some r.work_id
                recording_id := r.recording_id
                confidence := r.confidence
                match_method := some r.method
                match_attempts := s.match_attempts ++
                  [{ method := "fuzzy_title", success := true,
                     confidence := some r.confidence }] }
      | none =>
        let suggestions := FuzzyMatcher.matchList env db s.title s.artist
          env.settings.max_alternative_matches
        .ok { s with
                suggested_matches := s.suggested_matches ++ suggestions.map
                  (fun m => { work_id := m.work_id,
                              recording_id := m.recording_id,
                              confidence := m.confidence,
                              method := m.method })
                match_attempts := s.match_attempts ++
                  [{ method := "fuzzy_title", success := false,
                     suggestions_count := some suggestions.length }] }

/-- try_embedding_match (matching_agent.py lines 192-248): the suggestion
loop checks membership against the set of work ids computed before the loop. -/
def tryEmbedNode (env : MatchEnv) (db : MatchDB) (s0 : MState) :
    Except String MState :=
  let s := { s0 with current_step := "embedding_match" }
  if s.match_found then .ok s
  else if optEmbFalsy s.content_embedding then .ok s
  else
    match env.failEmbed with
    | some e => .error e
    | none =>
      match EmbeddingMatcher.getBestMatch env db s.content_embedding with
      | some r =>
        .ok { s with
                match_found := true
                work_id := some r.work_id
                recording_id := none
                confidence := r.confidence
                match_method := some r.method
                match_attempts := s.match_attempts ++
                  [{ method := "ai_embedding", success := true,
                     confidence := some r.confidence }] }
      | none =>
        let suggestions := EmbeddingMatcher.getSuggestions env db
          s.content_embedding env.settings.max_alternative_matches
        let existing := s.suggested_matches.map (fun x => x.work_id)
        let appended := suggestions.filter
          (fun m => !(existing.contains m.work_id))
        .ok { s with
                suggested_matches := s.suggested_matches ++ appended.map
                  (fun m => { work_id := m.work_id, recording_id := none,
                              confidence := m.confidence,
                              method := m.method })
                match_attempts := s.match_attempts ++
                  [{ method := "ai_embedding", success := false,
                     suggestions_count := some suggestions.length }] }

/-- determine_outcome (matching_agent.py lines 251-276): matched when a match
was found, otherwise unmatched with the suggestions sorted by confidence
descending and truncated to max_alternative_matches. -/
def determineOutcome (st : MatcherSettings) (s0 : MState) : MState :=
  let s := { s0 with current_step := "determine_outcome" }
  if s.match_found && s.work_id.isSome then
    { s with outcome := some "matched" }
  else
    { s with
        outcome := some "unmatched"
        suggested_matches :=
          (sortByKeyDesc (fun x => x.confidence) s.suggested_matches).take
            st.max_alternative_matches }

/-- persist_result (matching_agent.py lines 279-309): update the usage
event's status and processed_at, and on a matched outcome `session.add` a new
matched_usage row (a plain insert with a fresh primary key). A missing event
row only logs a warning. -/
def persistResultNode (env : MatchEnv) (db : MatchDB) (s0 : MState) :
    Except String (MatchDB × MState) :=
  let s := { s0 with current_step := "persist_result" }
  match env.failPersist with
  | some e => .error e
  | none =>
    match s.usage_event_id with
    | none => .error "ValueError: badly formed hexadecimal UUID string"
    | some evId =>
      match db.usage_events.find? (fun r => r.id == evId) with
      | some _ =>
        let events2 := db.usage_events.map (fun r =>
          if r.id == evId then
            { r with
                processing_status := s.outcome.getD ""
                processed_at := some env.nowTs }
          else r)
        let matched2 :=
          if s.outcome == some "matched" && s.work_id.isSome then
            db.matched_usage ++
              [{ id := env.freshMatchId, usage_event_id := evId,
                 work_id := s.work_id.getD 0, recording_id := s.recording_id,
                 match_confidence := s.confidence,
                 match_method := s.match_method.getD "",
                 matched_by := some "system", is_confirmed := false,
                 matched_at := env.nowTs }]
          else db.matched_usage
        .ok ({ db with usage_events := events2, matched_usage := matched2 }, s)
      | none => .ok (db, s)

/-- The tail of the graph after a short-circuit edge fires:
determine_outcome, then persist_result. -/
def finishGraph (env : MatchEnv) (db : MatchDB) (s : MState) :
    Except String (MatchDB × MState) :=
  persistResultNode env db (determineOutcome env.settings s)

/-- The compiled workflow graph (matching_agent.py lines 325-377): the four
strategy nodes with early-exit conditional edges on match_found, then
determine_outcome and persist_result. -/
def MatchingAgent.runGraph (env : MatchEnv) (db : MatchDB) (s0 : MState) :
    Except String (MatchDB × MState) := do
  let s1 ← tryIsrcNode env db s0
  if s1.match_found then finishGraph env db s1
  else do
    let s2 ← tryIswcNode env db s1
    if s2.match_found then finishGraph env db s2
    else do
      let s3 ← tryFuzzyNode env db s2
      if s3.match_found then finishGraph env db s3
      else do
        let s4 ← tryEmbedNode env db s3
        finishGraph env db s4

/-- MatchingAgent.match (matching_agent.py lines 379-423): run the graph; on
any exception return the initial state with outcome "error" and the error
string, leaving the database untouched (the failing session rolls back). -/
def MatchingAgent.matchRun (env : MatchEnv) (db : MatchDB) (msg : EventMsg) :
    MatchDB × MState :=
  let s0 := MState.initial msg
  match MatchingAgent.runGraph env db s0 with
  | .ok r => r
  | .error e => (db, { s0 with outcome := some "error", error := some e })

/-! ## Matching worker (matching_worker/src/main.py) -/

/-- The usage.matched payload (shared/schemas.py MatchedUsageEvent). -/
structure MatchedMsg where
  usage_event_id : Nat
  source : String
  usage_date : String
  territory : Option String := none
  work_id : Nat
  recording_id : Option Nat := none
  match_confidence : ℚ
  match_method : String
  usage_type : String
  play_count : Int
  revenue_amount : Option ℚ := none
  currency : String
  matched_at : Nat
deriving DecidableEq, Repr

/-- The usage.unmatched payload (shared/schemas.py UnmatchedUsageEvent). -/
structure UnmatchedMsg where
  usage_event_id : Nat
  source : String
  source_event_id : Option String := none
  isrc : Option (List Nat) := none
  reported_title : Option String := none
  reported_artist : Option String := none
  reported_album : Option String := none
  usage_type : String
  play_count : Int
  revenue_amount : Option ℚ := none
  currency : String
  territory : Option String := none
  usage_date : String
  suggested_matches : List Suggestion := []
  reason : String := "no_confident_match"
  queued_at : Nat
deriving DecidableEq, Repr

/-- Observable bus effects of one MatchingWorker.process_event call. -/
inductive MWEffect where
  | publishMatched (key : String) (payload : MatchedMsg)
  | publishUnmatched (key : String) (payload : UnmatchedMsg)
  | dlqMatching (key : String) (event : EventMsg) (error : String)
deriving DecidableEq, Repr

/-- The MatchedUsageEvent built by _publish_matched (main.py lines 116-151). -/
def MatchingWorker.buildMatched (env : MatchEnv) (msg : EventMsg) (eid : Nat)
    (result : MState) : MatchedMsg :=
  { usage_event_id := eid
    source := msg.source
    usage_date := msg.usage_date
    territory := msg.territory
    work_id := result.work_id.getD 0
    recording_id := result.recording_id
    match_confidence := result.confidence
    match_method := result.match_method.getD ""
    usage_type := msg.usage_type.getD "stream"
    play_count := msg.play_count.getD 1
    revenue_amount := msg.revenue_amount
    currency := msg.currency.getD "USD"
    matched_at := env.nowTs }

/-- The UnmatchedUsageEvent built by _publish_unmatched (main.py 153-202). -/
def MatchingWorker.buildUnmatched (env : MatchEnv) (msg : EventMsg) (eid : Nat)
    (result : MState) : UnmatchedMsg :=
  { usage_event_id := eid
    source := msg.source
    source_event_id := msg.source_event_id
    isrc := msg.isrc
    reported_title := msg.reported_title
    reported_artist := msg.reported_artist
    reported_album := msg.reported_album
    usage_type := msg.usage_type.getD "stream"
    play_count := msg.play_count.getD 1
    revenue_amount := msg.revenue_amount
    currency := msg.currency.getD "USD"
    territory := msg.territory
    usage_date := msg.usage_date
    suggested_matches := result.suggested_matches
    reason := "no_confident_match"
    queued_at := env.nowTs }

/-- MatchingWorker.process_event (main.py lines 82-114): run the agent, then
publish matched or unmatched, or send the failure record to dlq.matching on
the error outcome (or on an exception while publishing). -/
def MatchingWorker.processEvent (env : MatchEnv) (db : MatchDB)
    (msg : EventMsg) : MatchDB × List MWEffect :=
  let run := MatchingAgent.matchRun env db msg
  let db2 := run.1
  let result := run.2
  let dlqKey := match msg.event_id with
    | some e => toString e
    | none => ""
  if result.outcome == some "matched" then
    match msg.event_id with
    | some eid =>
      (db2, [.publishMatched (toString eid)
        (MatchingWorker.buildMatched env msg eid result)])
    | none => (db2, [.dlqMatching dlqKey msg "KeyError: event_id"])
  else if result.outcome == some "unmatched" then
    match msg.event_id with
    | some eid =>
      (db2, [.publishUnmatched (toString eid)
        (MatchingWorker.buildUnmatched env msg eid result)])
    | none => (db2, [.dlqMatching dlqKey msg "KeyError: event_id"])
  else
    (db2, [.dlqMatching dlqKey msg (result.error.getD "Unknown error")])

/-! ## General helper lemmas -/

/-- The evaluable subtraction agrees with the library subtraction. -/
theorem ratSub_eq (a b : ℚ) : ratSub a b = a - b :=
  (Rat.sub_def' a b).symm

/-- Decompose a successful Except bind. -/
theorem bindEqOk {α β : Type} {x : Except String α} {f : α → Except String β}
    {b : β} (h : (x >>= f) = .ok b) : ∃ a, x = .ok a ∧ f a = .ok b := by
  cases x with
  | ok a => exact ⟨a, rfl, h⟩
  | error e => simp [Bind.bind, Except.bind] at h

/-- Inserting into the descending sort is a permutation of consing. -/
theorem insertByKeyDesc_perm (key : α → ℚ) (x : α) (l : List α) :
    (insertByKeyDesc key x l).Perm (x :: l) := by
  induction l with
  | nil => simp [insertByKeyDesc]
  | cons y ys ih =>
    rw [insertByKeyDesc]
    by_cases hc : key y ≤ key x
    · rw [if_pos hc]
    · rw [if_neg hc]
      exact (ih.cons y).trans (List.Perm.swap x y ys)

/-- The descending stable sort permutes its input. -/
theorem sortByKeyDesc_perm (key : α → ℚ) (l : List α) :
    (sortByKeyDesc key l).Perm l := by
  induction l with
  | nil => rfl
  | cons x xs ih =>
    have : sortByKeyDesc key (x :: xs) = insertByKeyDesc key x (sortByKeyDesc key xs) := rfl
    rw [this]
    exact (insertByKeyDesc_perm key x _).trans (ih.cons x)

theorem mem_sortByKeyDesc {key : α → ℚ} {l : List α} {x : α} :
    x ∈ sortByKeyDesc key l ↔ x ∈ l :=
  (sortByKeyDesc_perm key l).mem_iff

/-- Inserting into a descending-sorted list keeps it sorted. -/
theorem pairwise_insertByKeyDesc (key : α → ℚ) (x : α) (l : List α)
    (h : List.Pairwise (fun a b => key b ≤ key a) l) :
    List.Pairwise (fun a b => key b ≤ key a) (insertByKeyDesc key x l) := by
  induction l with
  | nil => simp [insertByKeyDesc]
  | cons y ys ih =>
    rcases List.pairwise_cons.mp h with ⟨hy, hys⟩
    rw [insertByKeyDesc]
    by_cases hc : key y ≤ key x
    · rw [if_pos hc]
      refine List.pairwise_cons.mpr ⟨?_, h⟩
      intro b hb
      rcases List.mem_cons.mp hb with rfl | hb
      · exact hc
      · exact (hy b hb).trans hc
    · rw [if_neg hc]
      refine List.pairwise_cons.mpr ⟨?_, ih hys⟩
      intro b hb
      have hb2 := (insertByKeyDesc_perm key x ys).mem_iff.mp hb
      rcases List.mem_cons.mp hb2 with rfl | hb2
      · exact le_of_not_le hc
      · exact hy b hb2

/-- The descending stable sort is sorted by its key. -/
theorem pairwise_sortByKeyDesc (key : α → ℚ) (l : List α) :
    List.Pairwise (fun a b => key b ≤ key a) (sortByKeyDesc key l) := by
  induction l with
  | nil => simp [sortByKeyDesc]
  | cons x xs ih => exact pairwise_insertByKeyDesc key x _ ih

/-! ## ISRC cleaning lemmas -/

/-- The ASCII uppercase map is idempotent. -/
theorem upCode_idem (n : Nat) : upCode (upCode n) = upCode n := by
  unfold upCode
  by_cases h : 97 ≤ n ∧ n ≤ 122
  · rw [if_pos h]
    have h2 : ¬(97 ≤ n - 32 ∧ n - 32 ≤ 122) := by omega
    rw [if_neg h2]
  · rw [if_neg h, if_neg h]

/-- Uppercasing never produces a space or hyphen from a kept code point. -/
theorem keepCode_upCode {n : Nat} (h : keepCode n = true) :
    keepCode (upCode n) = true := by
  unfold keepCode upCode at *
  simp only [Bool.and_eq_true, bne_iff_ne, ne_eq] at *
  by_cases hr : 97 ≤ n ∧ n ≤ 122
  · rw [if_pos hr]; omega
  · rw [if_neg hr]; exact h

/-- The uppercase map never lands in the lowercase range. -/
theorem upCode_not_lower (n : Nat) : ¬(97 ≤ upCode n ∧ upCode n ≤ 122) := by
  unfold upCode
  by_cases h : 97 ≤ n ∧ n ≤ 122
  · rw [if_pos h]; omega
  · rw [if_neg h]; exact h

/-- The cleaning core is idempotent. -/
theorem isrcCore_idem (s : List Nat) : isrcCore (isrcCore s) = isrcCore s := by
  unfold isrcCore
  have hkeep : ∀ c ∈ (s.filter keepCode).map upCode, keepCode c = true := by
    intro c hc
    rcases List.mem_map.mp hc with ⟨d, hd, rfl⟩
    exact keepCode_upCode (List.of_mem_filter hd)
  rw [List.filter_eq_self.mpr hkeep, List.map_map]
  exact List.map_congr_left (fun d _ => upCode_idem d)

/-! ## C6 (confirmed) -/

/-- C6: ISRC cleaning is a normal form. Cleaning removes spaces and hyphens
and uppercases, returns the result exactly when its length is 12 (null
otherwise); representations that agree after separator removal and case
folding clean to the same key; a cleaned ISRC is a 12-character,
separator-free, uppercase key and cleaning it again returns it unchanged;
and the matcher's inline cleaning agrees with the normalizer's. -/
theorem C6_isrc_cleaning_normal_form :
    (∀ s t : List Nat, IsrcRepr.equiv s t →
      BaseNormalizer.cleanIsrc s = BaseNormalizer.cleanIsrc t) ∧
    (∀ s r : List Nat, BaseNormalizer.cleanIsrc s = some r →
      BaseNormalizer.cleanIsrc r = some r ∧ r.length = 12 ∧
        ∀ c ∈ r, keepCode c = true ∧ ¬(97 ≤ c ∧ c ≤ 122)) ∧
    (∀ s : List Nat, IsrcMatcher.cleanIsrc s = BaseNormalizer.cleanIsrc s) ∧
    (∀ s : List Nat,
      BaseNormalizer.cleanIsrc s = none ↔ (isrcCore s).length ≠ 12) := by
  refine ⟨?_, ?_, ?_, ?_⟩
  · intro s t h
    unfold BaseNormalizer.cleanIsrc
    rw [h]
  · intro s r h
    unfold BaseNormalizer.cleanIsrc at h
    by_cases hl : (isrcCore s).length = 12
    · rw [if_pos hl] at h
      injection h with h
      subst h
      refine ⟨?_, hl, ?_⟩
      · unfold BaseNormalizer.cleanIsrc
        rw [isrcCore_idem, if_pos hl]
      · intro c hc
        unfold isrcCore at hc
        rcases List.mem_map.mp hc with ⟨d, hd, rfl⟩
        exact ⟨keepCode_upCode (List.of_mem_filter hd), upCode_not_lower d⟩
    · rw [if_neg hl] at h
      exact absurd h (by simp)
  · intro s
    unfold IsrcMatcher.cleanIsrc BaseNormalizer.cleanIsrc isrcCore
    by_cases hl : ((s.filter keepCode).map upCode).length = 12
    · simp [hl]
    · simp [hl]
  · intro s
    unfold BaseNormalizer.cleanIsrc
    by_cases hl : (isrcCore s).length = 12
    · simp [hl]
    · simp [hl]

/-- Witness for C6 at the spec's concrete representations: the three spellings
clean to the same key, a cleaned key re-cleans to itself, and the two call
sites agree on a dirty Spotify-style ISRC. -/
theorem C6_isrc_cleaning_witness :
    BaseNormalizer.cleanIsrc (strCodes "xy-12-34-5678-90") =
      BaseNormalizer.cleanIsrc (strCodes "XY 12 34 56789 0") ∧
    BaseNormalizer.cleanIsrc (strCodes "xy-12-34-5678-90") =
      BaseNormalizer.cleanIsrc (strCodes "xy12345678 90") ∧
    BaseNormalizer.cleanIsrc (strCodes "XY1234567890") =
      some (strCodes "XY1234567890") ∧
    IsrcMatcher.cleanIsrc (strCodes "US-RC1-17-00001") =
      BaseNormalizer.cleanIsrc (strCodes "US-RC1-17-00001") := by
  refine ⟨C6_isrc_cleaning_normal_form.1 _ _ (by decide),
    C6_isrc_cleaning_normal_form.1 _ _ (by decide), ?_,
    C6_isrc_cleaning_normal_form.2.2.1 _⟩
  exact (C6_isrc_cleaning_normal_form.2.1 (strCodes "xy-12-34-5678-90")
    (strCodes "XY1234567890") (by decide)).1

/-! ## C8 (corrected): the usage_events insert drops the ISWC -/

/-- A concrete normalized event carrying an ISWC. -/
def c8event : NormalizedUsageEvent :=
  { event_id := 42
    source := "spotify"
    iswc := some "T0420052604"
    reported_title := some "Lovesong"
    usage_type := .stream
    usage_date := ⟨2024, 3, 15⟩
    reporting_period := some "2024_03"
    ingested_at := 1000 }

/-- Counterexample to C8: two normalized events that differ exactly in their
ISWC persist to the identical usage_events row, so the insert does not carry
all fields of the normalized event. -/
theorem C8_counterexample :
    UsageProcessor.persistRowOf c8event =
      UsageProcessor.persistRowOf { c8event with iswc := none } ∧
    c8event.iswc ≠ ({ c8event with iswc := none } : NormalizedUsageEvent).iswc := by
  constructor
  · rfl
  · decide

/-- C8 amended: the insert carries the normalized fields except the ISWC
(the usage_events model has no iswc column, so the value is dropped), with
processing_status `pending` and the generated event_id as primary key. -/
theorem C8_amended_insert_fields (e : NormalizedUsageEvent) (w : Option String) :
    (UsageProcessor.persistRowOf e).id = e.event_id ∧
    (UsageProcessor.persistRowOf e).processing_status = "pending" ∧
    (UsageProcessor.persistRowOf e).source = e.source ∧
    (UsageProcessor.persistRowOf e).source_event_id = e.source_event_id ∧
    (UsageProcessor.persistRowOf e).isrc = e.isrc ∧
    (UsageProcessor.persistRowOf e).reported_title = e.reported_title ∧
    (UsageProcessor.persistRowOf e).reported_artist = e.reported_artist ∧
    (UsageProcessor.persistRowOf e).reported_album = e.reported_album ∧
    (UsageProcessor.persistRowOf e).usage_type = e.usage_type.str ∧
    (UsageProcessor.persistRowOf e).play_count = e.play_count ∧
    (UsageProcessor.persistRowOf e).revenue_amount = e.revenue_amount ∧
    (UsageProcessor.persistRowOf e).currency = e.currency ∧
    (UsageProcessor.persistRowOf e).territory = e.territory ∧
    (UsageProcessor.persistRowOf e).usage_date = e.usage_date ∧
    (UsageProcessor.persistRowOf e).reporting_period = e.reporting_period ∧
    (UsageProcessor.persistRowOf e).ingested_at = e.ingested_at ∧
    (UsageProcessor.persistRowOf e).content_embedding = e.content_embedding ∧
    UsageProcessor.persistRowOf { e with iswc := w } = UsageProcessor.persistRowOf e :=
  ⟨rfl, rfl, rfl, rfl, rfl, rfl, rfl, rfl, rfl, rfl, rfl, rfl, rfl, rfl, rfl,
   rfl, rfl, rfl⟩

/-! ## C4 (corrected): the play-count floor -/

/-- The generic extractor returns 1 when every count field is absent or
unparseable. -/
theorem playCountGo_default (raw : RawData) :
    ∀ fs : List String, (∀ f ∈ fs, pyInt? (raw.getv f) = none) →
      GenericNormalizer.playCountGo raw fs = 1 := by
  intro fs
  induction fs with
  | nil => intro _; rfl
  | cons f fs ih =>
    intro h
    have hf : pyInt? (raw.getv f) = none := h f (List.mem_cons_self f fs)
    have hrest := ih (fun g hg => h g (List.mem_cons_of_mem f hg))
    rw [GenericNormalizer.playCountGo]
    by_cases hv : raw.getv f = PyVal.vnone
    · rw [if_pos hv]; exact hrest
    · rw [if_neg hv, hf]; exact hrest

/-- Normalizer environment for the C4 runs. -/
def c4env : NormEnv := ⟨⟨2024, 1, 1⟩, 500, 7⟩

/-- Counterexample to C4: a generic payload reporting zero plays normalizes
to play_count = 0, below the claimed floor of 1. -/
theorem C4_counterexample :
    (GenericNormalizer.normalize c4env
        [("plays", .vint 0), ("title", .vstr "Xyzzy"),
         ("date", .vstr "2024-03-15")]).map
      (fun e => e.play_count) = .ok 0 := by
  rfl

/-- C4 amended: play_count falls back to 1 only when the source reports no
usable count: the generic extractor defaults to 1 when every count field is
absent or unparseable but passes any parseable value through unchanged (zero
and negatives included), and the Spotify/Apple `or`-chains floor a falsy zero
to 1 but pass negative counts through. -/
theorem C4_amended_play_count_default :
    (∀ raw : RawData, (∀ f ∈ countFields, pyInt? (raw.getv f) = none) →
      GenericNormalizer.extractPlayCount raw = 1) ∧
    (∀ n : Int, GenericNormalizer.extractPlayCount [("plays", .vint n)] = n) ∧
    SpotifyNormalizer.playCountVal [] = .ok 1 ∧
    SpotifyNormalizer.playCountVal [("streams", .vint 0)] = .ok 1 ∧
    SpotifyNormalizer.playCountVal [("streams", .vint (-3))] = .ok (-3) ∧
    AppleMusicNormalizer.playCountVal [("play_count", .vint (-2))] = .ok (-2) ∧
    (GenericNormalizer.normalize c4env
        [("plays", .vint (-7)), ("date", .vstr "2024-03-15")]).map
      (fun e => e.play_count) = .ok (-7) := by
  refine ⟨?_, ?_, rfl, rfl, rfl, rfl, rfl⟩
  · intro raw h
    exact playCountGo_default raw countFields h
  · intro n
    rfl

/-- Witness for C4's amended default: a payload whose only count field is an
unparseable string extracts play_count 1. -/
theorem C4_amended_witness :
    GenericNormalizer.extractPlayCount [("plays", PyVal.vstr "n/a")] = 1 :=
  C4_amended_play_count_default.1 [("plays", PyVal.vstr "n/a")] (by decide)

/-! ## C10 (confirmed): the generic normalizer passes the payload source tag
through, the platform normalizers emit fixed source names -/

/-- C10: whenever the generic normalizer emits an event, its source field is
the raw payload's own "source" value when that key holds a string, and
"generic" when the key is absent; the Spotify and Apple Music normalizers
always emit their fixed source names. -/
theorem C10_source_passthrough :
    (∀ (env : NormEnv) (raw : RawData) (e : NormalizedUsageEvent) (v : String),
      GenericNormalizer.normalize env raw = .ok e →
      raw.lookup "source" = some (.vstr v) → e.source = v) ∧
    (∀ (env : NormEnv) (raw : RawData) (e : NormalizedUsageEvent),
      GenericNormalizer.normalize env raw = .ok e →
      raw.lookup "source" = none → e.source = "generic") ∧
    (∀ (env : NormEnv) (raw : RawData) (e : NormalizedUsageEvent),
      SpotifyNormalizer.normalize env raw = .ok e → e.source = "spotify") ∧
    (∀ (env : NormEnv) (raw : RawData) (e : NormalizedUsageEvent),
      AppleMusicNormalizer.normalize env raw = .ok e → e.source = "apple_music") := by
  refine ⟨?_, ?_, ?_, ?_⟩
  · intro env raw e v h hs
    unfold GenericNormalizer.normalize at h
    obtain ⟨isrc, -, h⟩ := bindEqOk h
    obtain ⟨title, -, h⟩ := bindEqOk h
    obtain ⟨artist, -, h⟩ := bindEqOk h
    obtain ⟨album, -, h⟩ := bindEqOk h
    obtain ⟨ut, -, h⟩ := bindEqOk h
    obtain ⟨cur, -, h⟩ := bindEqOk h
    obtain ⟨terr, -, h⟩ := bindEqOk h
    obtain ⟨ud, -, h⟩ := bindEqOk h
    obtain ⟨rp, -, h⟩ := bindEqOk h
    obtain ⟨src, hsrc, h⟩ := bindEqOk h
    obtain ⟨iswc, -, h⟩ := bindEqOk h
    injection h with h
    subst h
    unfold pyStrReq RawData.getvD at hsrc
    rw [hs] at hsrc
    simp only [Option.getD_some] at hsrc
    injection hsrc with hsrc
    exact hsrc.symm
  · intro env raw e h hs
    unfold GenericNormalizer.normalize at h
    obtain ⟨isrc, -, h⟩ := bindEqOk h
    obtain ⟨title, -, h⟩ := bindEqOk h
    obtain ⟨artist, -, h⟩ := bindEqOk h
    obtain ⟨album, -, h⟩ := bindEqOk h
    obtain ⟨ut, -, h⟩ := bindEqOk h
    obtain ⟨cur, -, h⟩ := bindEqOk h
    obtain ⟨terr, -, h⟩ := bindEqOk h
    obtain ⟨ud, -, h⟩ := bindEqOk h
    obtain ⟨rp, -, h⟩ := bindEqOk h
    obtain ⟨src, hsrc, h⟩ := bindEqOk h
    obtain ⟨iswc, -, h⟩ := bindEqOk h
    injection h with h
    subst h
    unfold pyStrReq RawData.getvD at hsrc
    rw [hs] at hsrc
    simp only [Option.getD_none] at hsrc
    injection hsrc with hsrc
    exact hsrc.symm
  · intro env raw e h
    unfold SpotifyNormalizer.normalize at h
    obtain ⟨isrc, -, h⟩ := bindEqOk h
    obtain ⟨title, -, h⟩ := bindEqOk h
    obtain ⟨artist, -, h⟩ := bindEqOk h
    obtain ⟨album, -, h⟩ := bindEqOk h
    obtain ⟨pc, -, h⟩ := bindEqOk h
    obtain ⟨rev, -, h⟩ := bindEqOk h
    obtain ⟨cur, -, h⟩ := bindEqOk h
    obtain ⟨terr, -, h⟩ := bindEqOk h
    obtain ⟨ud, -, h⟩ := bindEqOk h
    obtain ⟨rp, -, h⟩ := bindEqOk h
    obtain ⟨seid, -, h⟩ := bindEqOk h
    obtain ⟨iswc, -, h⟩ := bindEqOk h
    injection h with h
    subst h
    rfl
  · intro env raw e h
    unfold AppleMusicNormalizer.normalize at h
    obtain ⟨isrc, -, h⟩ := bindEqOk h
    obtain ⟨title, -, h⟩ := bindEqOk h
    obtain ⟨artist, -, h⟩ := bindEqOk h
    obtain ⟨album, -, h⟩ := bindEqOk h
    obtain ⟨pc, -, h⟩ := bindEqOk h
    obtain ⟨pt, -, h⟩ := bindEqOk h
    obtain ⟨rev, -, h⟩ := bindEqOk h
    obtain ⟨cur, -, h⟩ := bindEqOk h
    obtain ⟨terr, -, h⟩ := bindEqOk h
    obtain ⟨ud, -, h⟩ := bindEqOk h
    obtain ⟨rp, -, h⟩ := bindEqOk h
    obtain ⟨seid, -, h⟩ := bindEqOk h
    obtain ⟨iswc, -, h⟩ := bindEqOk h
    injection h with h
    subst h
    rfl

/-- Normalizer environment for the C10 witness runs. -/
def c10env : NormEnv := ⟨⟨2024, 1, 1⟩, 600, 11⟩

/-- A generically dispatched payload that carries its own source tag. -/
def c10raw : RawData :=
  [("source", .vstr "radio_x"), ("title", .vstr "Mr Sandman"),
   ("date", .vstr "2024-03-15")]

/-- The event the generic normalizer produces for `c10raw`. -/
def c10event : NormalizedUsageEvent :=
  { event_id := 11
    source := "radio_x"
    reported_title := some "Mr Sandman"
    usage_type := .stream
    play_count := 1
    currency := "USD"
    usage_date := ⟨2024, 3, 15⟩
    reporting_period := some "2024_03"
    ingested_at := 600 }

/-- Witness for C10: the payload's own source tag `radio_x` survives into the
emitted event. -/
theorem C10_source_passthrough_witness :
    GenericNormalizer.normalize c10env c10raw = Except.ok c10event ∧
    c10event.source = "radio_x" :=
  ⟨rfl, C10_source_passthrough.1 c10env c10raw c10event "radio_x" rfl (by decide)⟩

/-! ## C5 (confirmed): the row insert precedes the publish -/

/-- Scan a processor trace checking that every published normalized event was
preceded by the database insert of its row. -/
def publishCoveredGo (inserted : List UsageEventRow) : List ProcEffect → Bool
  | [] => true
  | ProcEffect.dbInsert r :: rest => publishCoveredGo (r :: inserted) rest
  | ProcEffect.publish _ _ ev :: rest =>
    inserted.contains (UsageProcessor.persistRowOf ev) &&
      publishCoveredGo inserted rest
  | _ :: rest => publishCoveredGo inserted rest

/-- C5: in every execution of the Usage Processor handler, a publish of a
normalized event to usage.normalized is preceded by the insert of that
event's usage_events row: the scan succeeds on every trace, and each
published event has the ordered pair (its row insert, its publish) as a
sublist of the trace. -/
theorem C5_persist_precedes_publish :
    (∀ (env : ProcEnv) (topic : String) (raw : RawData),
      publishCoveredGo [] (UsageProcessor.processEvent env topic raw) = true) ∧
    (∀ (env : ProcEnv) (topic k : String) (raw : RawData)
        (ev : NormalizedUsageEvent),
      ProcEffect.publish "usage.normalized" k ev ∈
        UsageProcessor.processEvent env topic raw →
      List.Sublist
        [ProcEffect.dbInsert (UsageProcessor.persistRowOf ev),
         ProcEffect.publish "usage.normalized" k ev]
        (UsageProcessor.processEvent env topic raw)) := by
  constructor
  · intro env topic raw
    unfold UsageProcessor.processEvent
    cases hn : normalizeBySource env.norm (Topics.sourceFromTopic topic) raw with
    | error e => rfl
    | ok n0 =>
      dsimp only
      by_cases hc : env.dbOutcomes.headD true = true
      · rw [if_pos hc]
        by_cases hp : env.publishOk = true
        · rw [if_pos hp]
          simp [publishCoveredGo]
        · rw [if_neg hp]
          rfl
      · rw [if_neg hc]
        rfl
  · intro env topic k raw ev h
    unfold UsageProcessor.processEvent at h ⊢
    cases hn : normalizeBySource env.norm (Topics.sourceFromTopic topic) raw with
    | error e =>
      rw [hn] at h
      simp at h
    | ok n0 =>
      rw [hn] at h
      dsimp only at h ⊢
      by_cases hc : env.dbOutcomes.headD true = true
      · rw [if_pos hc] at h ⊢
        by_cases hp : env.publishOk = true
        · rw [if_pos hp] at h ⊢
          simp only [List.mem_cons, List.not_mem_nil, or_false] at h
          rcases h with h | h | h
          · exact absurd h (by simp)
          · exact absurd h (by simp)
          · rw [ProcEffect.publish.injEq] at h
            obtain ⟨-, hk, hev⟩ := h
            subst hk
            subst hev
            exact List.Sublist.cons _ (List.Sublist.refl _)
        · rw [if_neg hp] at h
          simp at h
      · rw [if_neg hc] at h
        simp at h

/-- Processor environment for the C5 witness run. -/
def c5env : ProcEnv := { norm := ⟨⟨2024, 1, 1⟩, 700, 9⟩ }

/-- A raw generic payload for the C5 witness run. -/
def c5raw : RawData :=
  [("title", .vstr "Lovesong"), ("artist", .vstr "The Cure"),
   ("date", .vstr "2024-03-15")]

/-- The normalized event produced for `c5raw`. -/
def c5event : NormalizedUsageEvent :=
  { event_id := 9
    source := "generic"
    reported_title := some "Lovesong"
    reported_artist := some "The Cure"
    usage_type := .stream
    play_count := 1
    usage_date := ⟨2024, 3, 15⟩
    reporting_period := some "2024_03"
    ingested_at := 700 }

/-- Witness for C5: a concrete successful run contains insert-then-publish in
order. -/
theorem C5_persist_precedes_publish_witness :
    List.Sublist
      [ProcEffect.dbInsert (UsageProcessor.persistRowOf c5event),
       ProcEffect.publish "usage.normalized" "9" c5event]
      (UsageProcessor.processEvent c5env "usage.raw.generic" c5raw) :=
  C5_persist_precedes_publish.2 c5env "usage.raw.generic" "9" c5raw c5event
    (by decide)

/-! ## C7 (corrected): persistence has no retry loop -/

/-- Processor environment for the C7 run: the first commit attempt fails, a
second attempt would succeed. -/
def c7env : ProcEnv :=
  { norm := ⟨⟨2024, 1, 1⟩, 800, 13⟩, dbOutcomes := [false, true] }

/-- A raw generic payload for the C7 run. -/
def c7raw : RawData :=
  [("title", .vstr "Pictures of You"), ("date", .vstr "2024-03-15")]

/-- Counterexample to C7: on a transient database error (a retry would
succeed) the handler makes exactly one persistence attempt and routes the
event to dlq.usage.processing, although max_retries defaults to 3; no
usage_events status is written at all, let alone `error`. -/
theorem C7_counterexample :
    UsageProcessor.processEvent c7env "usage.raw.generic" c7raw =
      [ProcEffect.dbTry false,
       ProcEffect.dlqProcessing "usage.raw.generic" c7raw
         "DatabaseError: commit failed"] ∧
    c7env.dbOutcomes = [false, true] ∧
    ({} : ProcSettings).max_retries = 3 :=
  ⟨rfl, rfl, rfl⟩

/-- C7 amended: a failed persistence is not retried — every handler
execution makes at most one commit attempt, and the only status the worker
ever writes into a usage_events row is `pending` (the `error` status is never
written; the max_retries setting is unused). -/
theorem C7_amended_single_attempt :
    (∀ (env : ProcEnv) (topic : String) (raw : RawData),
      (UsageProcessor.processEvent env topic raw).countP
        (fun eff => match eff with
          | ProcEffect.dbTry _ => true
          | _ => false) ≤ 1) ∧
    (∀ (env : ProcEnv) (topic : String) (raw : RawData),
      (UsageProcessor.processEvent env topic raw).all
        (fun eff => match eff with
          | ProcEffect.dbInsert row => row.processing_status == "pending"
          | _ => true) = true) := by
  constructor
  · intro env topic raw
    unfold UsageProcessor.processEvent
    cases hn : normalizeBySource env.norm (Topics.sourceFromTopic topic) raw with
    | error e => simp [List.countP, List.countP.go]
    | ok n0 =>
      dsimp only
      by_cases hc : env.dbOutcomes.headD true = true
      · rw [if_pos hc]
        by_cases hp : env.publishOk = true
        · rw [if_pos hp]
          simp [List.countP, List.countP.go]
        · rw [if_neg hp]
          simp [List.countP, List.countP.go]
      · rw [if_neg hc]
        simp [List.countP, List.countP.go]
  · intro env topic raw
    unfold UsageProcessor.processEvent
    cases hn : normalizeBySource env.norm (Topics.sourceFromTopic topic) raw with
    | error e => rfl
    | ok n0 =>
      dsimp only
      by_cases hc : env.dbOutcomes.headD true = true
      · rw [if_pos hc]
        by_cases hp : env.publishOk = true
        · rw [if_pos hp]
          simp [UsageProcessor.persistRowOf]
        · rw [if_neg hp]
          simp [UsageProcessor.persistRowOf]
      · rw [if_neg hc]
        rfl

/-! ## Fuzzy matcher lemmas -/

/-- A value of the dedup dict after one update is an old value or the new
match. -/
theorem dictUpd_values_mem {acc : List (Nat × MatchRes)} {m : MatchRes}
    {x : MatchRes} (h : x ∈ (dictUpd acc m).map Prod.snd) :
    x ∈ acc.map Prod.snd ∨ x = m := by
  unfold dictUpd at h
  cases hl : acc.lookup m.work_id with
  | none =>
    rw [hl] at h
    rw [List.map_append] at h
    rcases List.mem_append.mp h with h | h
    · exact Or.inl h
    · simp at h
      exact Or.inr h
  | some old =>
    rw [hl] at h
    dsimp only at h
    by_cases hc : old.confidence < m.confidence
    · rw [if_pos hc] at h
      rw [List.map_map] at h
      rcases List.mem_map.mp h with ⟨p, hp, heq⟩
      by_cases hpk : p.1 = m.work_id
      · right
        rw [← heq]
        simp [Function.comp, hpk]
      · left
        rw [← heq]
        simp only [Function.comp, if_neg hpk]
        exact List.mem_map_of_mem Prod.snd hp
    · rw [if_neg hc] at h
      exact Or.inl h

/-- Every value of the folded dedup dict comes from the start value or from
the inserted matches. -/
theorem foldl_dictUpd_values {ms : List MatchRes} :
    ∀ {acc : List (Nat × MatchRes)} {x : MatchRes},
      x ∈ (ms.foldl dictUpd acc).map Prod.snd →
      x ∈ acc.map Prod.snd ∨ x ∈ ms := by
  induction ms with
  | nil =>
    intro acc x h
    exact Or.inl h
  | cons m ms ih =>
    intro acc x h
    rw [List.foldl_cons] at h
    rcases ih h with h | h
    · rcases dictUpd_values_mem h with h | heq
      · exact Or.inl h
      · subst heq
        exact Or.inr (List.mem_cons_self _ _)
    · exact Or.inr (List.mem_cons_of_mem m h)

/-- Every match _match_recordings returns clears the full fuzzy threshold. -/
theorem matchRecordings_threshold {env : MatchEnv} {db : MatchDB} {t : String}
    {artist : Option String} {lim : Nat} {m : MatchRes}
    (h : m ∈ FuzzyMatcher.matchRecordings env db t artist lim) :
    env.settings.fuzzy_match_threshold ≤ m.confidence := by
  unfold FuzzyMatcher.matchRecordings at h
  rcases List.mem_filterMap.mp h with ⟨r, -, hr⟩
  dsimp only at hr
  split at hr
  · next hcond =>
    injection hr with hr
    subst hr
    exact hcond
  · cases hr

/-- Every match _match_works returns clears the full fuzzy threshold. -/
theorem matchWorks_threshold {env : MatchEnv} {db : MatchDB} {t : String}
    {lim : Nat} {m : MatchRes}
    (h : m ∈ FuzzyMatcher.matchWorks env db t lim) :
    env.settings.fuzzy_match_threshold ≤ m.confidence := by
  unfold FuzzyMatcher.matchWorks at h
  rcases List.mem_filterMap.mp h with ⟨w, -, hw⟩
  dsimp only at hw
  split at hw
  · next hcond =>
    injection hw with hw
    subst hw
    exact hcond
  · cases hw

/-- The fuzzy match list never carries a sub-threshold candidate: the recall
band rows are discarded by the confidence filter before they can surface. -/
theorem matchList_all_above_threshold (env : MatchEnv) (db : MatchDB)
    (t a : Option String) (lim : Nat) :
    (FuzzyMatcher.matchList env db t a lim).all
      (fun m => decide (env.settings.fuzzy_match_threshold ≤ m.confidence)) =
      true := by
  rw [List.all_eq_true]
  intro m hm
  rw [decide_eq_true_eq]
  unfold FuzzyMatcher.matchList at hm
  split at hm
  · cases hm
  · split at hm
    · cases hm
    · dsimp only at hm
      have hm2 := (List.take_sublist lim _).subset hm
      have hm3 := mem_sortByKeyDesc.mp hm2
      rcases foldl_dictUpd_values hm3 with h | h
      · cases h
      · rcases List.mem_append.mp h with h | h
        · exact matchRecordings_threshold h
        · exact matchWorks_threshold h

/-! ## C1 (code_bug): the fuzzy strategy can never contribute suggestions -/

/-- Matching environment whose trigram oracle scores every comparison 0.8,
inside the recall band `[0.75, 0.85)` of the default thresholds. -/
def c1env : MatchEnv := { sim := fun _ _ => mkRat 8 10 }

/-- A catalog with one recording that falls in the recall band. -/
def c1db : MatchDB :=
  { recordings := [{ id := 1, work_id := 10, title := "Lovesong",
                     artist_name := some "The Cure" }] }

/-- The consumed event for the C1 run. -/
def c1msg : EventMsg :=
  { event_id := some 7, source := "generic",
    reported_title := some "Lovesong", reported_artist := some "The Cure",
    usage_date := "2024-03-15" }

/-- C1 failure evidence: with the default thresholds a candidate whose
similarity 0.8 lies in `[fuzzy_threshold - 0.1, fuzzy_threshold)` is drawn by
the recall query, yet the match list filters it out, so the fuzzy node adds
no suggestion at all; in general every match the fuzzy matcher returns
already clears the full threshold, so the unmatched path never receives
fuzzy suggestions. -/
theorem C1_fuzzy_band_suggestions_dropped :
    (c1env.settings.fuzzy_match_threshold - mkRat 1 10 ≤ mkRat 8 10 ∧
      mkRat 8 10 < c1env.settings.fuzzy_match_threshold) ∧
    FuzzyMatcher.recordingCandidates c1env c1db "Lovesong" (some "The Cure") 5 =
      [{ id := 1, work_id := 10, title := "Lovesong",
         artist_name := some "The Cure" }] ∧
    FuzzyMatcher.matchList c1env c1db (some "Lovesong") (some "The Cure") 5 =
      [] ∧
    (tryFuzzyNode c1env c1db (MState.initial c1msg)).map
      (fun s => (s.match_found, s.suggested_matches)) = .ok (false, []) ∧
    (∀ (env : MatchEnv) (db : MatchDB) (t a : Option String) (lim : Nat),
      (FuzzyMatcher.matchList env db t a lim).all
        (fun m => decide (env.settings.fuzzy_match_threshold ≤ m.confidence)) =
        true) := by
  refine ⟨⟨by rw [← ratSub_eq]; decide, by decide⟩, by decide, by decide,
    rfl, ?_⟩
  exact matchList_all_above_threshold

/-! ## C2 (corrected): the error path never writes the error status -/

/-- The pending usage_events row the matching run would update. -/
def c2row : UsageEventRow :=
  { id := 7, source := "generic", source_event_id := none, isrc := none,
    reported_title := some "Xyzzy", reported_artist := none,
    reported_album := none, usage_type := "stream", play_count := 1,
    revenue_amount := none, currency := "USD", territory := none,
    usage_date := ⟨2024, 3, 15⟩, reporting_period := some "2024_03",
    processing_status := "pending", raw_payload := none, ingested_at := 100,
    processed_at := none, content_embedding := none }

/-- Database for the C2 run. -/
def c2db : MatchDB := { usage_events := [c2row] }

/-- The consumed event for the C2 run. -/
def c2msg : EventMsg :=
  { event_id := some 7, source := "generic", reported_title := some "Xyzzy",
    usage_date := "2024-03-15" }

/-- Environment for the C2 run: the fuzzy strategy raises unexpectedly. -/
def c2env : MatchEnv := { failFuzzy := some "DatabaseError: connection refused" }

/-- Counterexample to C2: when the cascade raises, the worker does send the
failure record to dlq.matching and publishes nothing, but the usage event's
processing_status is never updated — the row still reads `pending`, not
`error` (persist_result is skipped when the graph aborts). -/
theorem C2_counterexample :
    MatchingWorker.processEvent c2env c2db c2msg =
      (c2db, [MWEffect.dlqMatching "7" c2msg
        "DatabaseError: connection refused"]) ∧
    ((c2db.usage_events.find? (fun r => r.id == 7)).map
      (fun r => r.processing_status)) = some "pending" ∧
    "pending" ≠ "error" := by
  refine ⟨by decide, rfl, by decide⟩

/-- C2 amended: on any unexpected error in the matching cascade, the worker
sends one failure record to dlq.matching carrying the error string and
publishes nothing to usage.matched or usage.unmatched, while the database is
left untouched — in particular no processing_status is set to `error`. -/
theorem C2_amended_error_path (env : MatchEnv) (db : MatchDB) (msg : EventMsg)
    (e : String)
    (h : MatchingAgent.runGraph env db (MState.initial msg) = .error e) :
    MatchingWorker.processEvent env db msg =
      (db, [MWEffect.dlqMatching
        (match msg.event_id with | some i => toString i | none => "") msg e]) := by
  unfold MatchingWorker.processEvent MatchingAgent.matchRun
  dsimp only
  rw [h]
  rfl

/-- Witness for C2 amended at the concrete failing run. -/
theorem C2_amended_error_path_witness :
    MatchingWorker.processEvent c2env c2db c2msg =
      (c2db, [MWEffect.dlqMatching "7" c2msg
        "DatabaseError: connection refused"]) :=
  C2_amended_error_path c2env c2db c2msg "DatabaseError: connection refused"
    rfl

/-! ## C3 (corrected): the match write is a plain insert, not an upsert -/

/-- A recording matched by ISRC in the C3 run. -/
def c3rec : Recording :=
  { id := 3, work_id := 10, isrc := some (strCodes "USRC11700001"),
    title := "One", artist_name := some "Metallica" }

/-- The pending usage_events row for the C3 run. -/
def c3row : UsageEventRow :=
  { id := 7, source := "spotify", source_event_id := none,
    isrc := some (strCodes "USRC11700001"), reported_title := some "One",
    reported_artist := none, reported_album := none, usage_type := "stream",
    play_count := 3, revenue_amount := none, currency := "USD",
    territory := none, usage_date := ⟨2024, 3, 15⟩,
    reporting_period := some "2024_03", processing_status := "pending",
    raw_payload := none, ingested_at := 100, processed_at := none,
    content_embedding := none }

/-- Database for the C3 run. -/
def c3db : MatchDB := { recordings := [c3rec], usage_events := [c3row] }

/-- The consumed event for the C3 run. -/
def c3msg : EventMsg :=
  { event_id := some 7, source := "spotify",
    isrc := some (strCodes "USRC11700001"), usage_date := "2024-03-15" }

/-- Environment for the C3 run. -/
def c3env : MatchEnv := {}

/-- Counterexample to C3: processing the same normalized event twice (the
at-least-once redelivery case) leaves two matched_usage rows for the same
(usage_event_id, work_id) pair — the write is session.add, not an upsert,
and the model declares no unique constraint on the pair. -/
theorem C3_counterexample :
    (((MatchingWorker.processEvent c3env
        (MatchingWorker.processEvent c3env c3db c3msg).1 c3msg).1).matched_usage).countP
      (fun r => r.usage_event_id == 7 && r.work_id == 10) = 2 := by
  decide

/-- C3 amended: persisting a result appends at most one fresh matched_usage
row and keeps every existing row, so re-processing the same event adds a
duplicate row for its (usage_event_id, work_id) pair instead of upserting. -/
theorem C3_amended_plain_insert (env : MatchEnv) (db : MatchDB) (s : MState)
    (db2 : MatchDB) (s2 : MState)
    (h : persistResultNode env db s = .ok (db2, s2)) :
    ∃ t, db2.matched_usage = db.matched_usage ++ t ∧ t.length ≤ 1 := by
  unfold persistResultNode at h
  cases hf : env.failPersist with
  | some e =>
    rw [hf] at h
    cases h
  | none =>
    rw [hf] at h
    dsimp only at h
    cases hu : s.usage_event_id with
    | none =>
      rw [hu] at h
      cases h
    | some evId =>
      rw [hu] at h
      dsimp only at h
      cases hfind : db.usage_events.find? (fun r => r.id == evId) with
      | none =>
        rw [hfind] at h
        injection h with h
        rw [Prod.ext_iff] at h
        obtain ⟨h1, -⟩ := h
        subst h1
        exact ⟨[], by simp, by simp⟩
      | some row =>
        rw [hfind] at h
        dsimp only at h
        injection h with h
        rw [Prod.ext_iff] at h
        obtain ⟨h1, -⟩ := h
        subst h1
        by_cases hcond : (s.outcome == some "matched" && s.work_id.isSome) = true
        · refine ⟨[{ id := env.freshMatchId
                     usage_event_id := evId
                     work_id := s.work_id.getD 0
                     recording_id := s.recording_id
                     match_confidence := s.confidence
                     match_method := s.match_method.getD ""
                     matched_by := some "system"
                     is_confirmed := false
                     matched_at := env.nowTs }], ?_, by simp⟩
          dsimp only
          rw [if_pos hcond]
        · refine ⟨[], ?_, by simp⟩
          dsimp only
          rw [if_neg hcond, List.append_nil]

/-- An agent state about to be persisted with the unmatched outcome. -/
def c3state : MState :=
  { MState.initial c3msg with outcome := some "unmatched" }

/-- The database after the C3 witness persistence. -/
def c3dbAfter : MatchDB :=
  { c3db with
      usage_events := [{ c3row with
                           processing_status := "unmatched"
                           processed_at := some 0 }] }

/-- Witness for C3 amended at a concrete persistence. -/
theorem C3_amended_plain_insert_witness :
    ∃ t, c3dbAfter.matched_usage = c3db.matched_usage ++ t ∧ t.length ≤ 1 :=
  C3_amended_plain_insert c3env c3db c3state c3dbAfter
    { c3state with current_step := "persist_result" } rfl

/-! ## C9 (corrected): ties are not broken by work_id -/

/-- A suggestion for work 2 with confidence 0.7. -/
def c9sugA : Suggestion :=
  { work_id := 2, confidence := mkRat 7 10, method := "fuzzy_title" }

/-- A suggestion for work 1 with the same confidence 0.7. -/
def c9sugB : Suggestion :=
  { work_id := 1, confidence := mkRat 7 10, method := "fuzzy_title" }

/-- An unmatched agent state whose collected suggestions tie on confidence
with the larger work_id first. -/
def c9state : MState :=
  { MState.initial {} with suggested_matches := [c9sugA, c9sugB] }

/-- Counterexample to C9: two suggestions with identical confidence keep
their insertion order through the final sort — work 2 stays before work 1,
so equal similarities are not ordered by work_id ascending. -/
theorem C9_counterexample :
    (determineOutcome {} c9state).suggested_matches = [c9sugA, c9sugB] ∧
    c9sugA.confidence = c9sugB.confidence ∧
    c9sugB.work_id < c9sugA.work_id := by
  refine ⟨by decide, by decide, by decide⟩

/-- All-equal keys pass through the stable sort unchanged: ties keep their
insertion order. -/
theorem sortByKeyDesc_const_key (key : α → ℚ) (c : ℚ) :
    ∀ l : List α, (∀ x ∈ l, key x = c) → sortByKeyDesc key l = l := by
  intro l
  induction l with
  | nil => intro _; rfl
  | cons x xs ih =>
    intro h
    have hx : sortByKeyDesc key (x :: xs) =
        insertByKeyDesc key x (sortByKeyDesc key xs) := rfl
    rw [hx, ih (fun y hy => h y (List.mem_cons_of_mem x hy))]
    cases xs with
    | nil => rfl
    | cons y ys =>
      rw [insertByKeyDesc]
      rw [if_pos]
      rw [h y (by simp), h x (by simp)]

/-- C9 amended: within a strategy and in the final suggestion sort, higher
confidence does win — the outputs are sorted by confidence descending and
truncated to the limit — but identical confidences keep their insertion
order (the sort is stable); no work_id tie-break exists. -/
theorem C9_amended_sort_stable :
    (∀ (st : MatcherSettings) (s : MState), s.match_found = false →
      List.Pairwise (fun a b => b.confidence ≤ a.confidence)
        ((determineOutcome st s).suggested_matches) ∧
      ((determineOutcome st s).suggested_matches).length ≤
        st.max_alternative_matches) ∧
    (∀ (env : MatchEnv) (db : MatchDB) (t a : Option String) (lim : Nat),
      List.Pairwise (fun m1 m2 => m2.confidence ≤ m1.confidence)
        (FuzzyMatcher.matchList env db t a lim)) ∧
    (∀ (key : Suggestion → ℚ) (l : List Suggestion),
      (sortByKeyDesc key l).Perm l) ∧
    (∀ (key : Suggestion → ℚ) (c : ℚ) (l : List Suggestion),
      (∀ x ∈ l, key x = c) → sortByKeyDesc key l = l) := by
  refine ⟨?_, ?_, ?_, ?_⟩
  · intro st s hs
    unfold determineOutcome
    have hcond : (s.match_found && s.work_id.isSome) = false := by
      rw [hs]
      rfl
    rw [if_neg (by rw [hcond]; simp)]
    constructor
    · exact List.Pairwise.sublist (List.take_sublist _ _)
        (pairwise_sortByKeyDesc (fun x => x.confidence) s.suggested_matches)
    · exact List.length_take_le _ _
  · intro env db t a lim
    unfold FuzzyMatcher.matchList
    split
    · exact List.Pairwise.nil
    · split
      · exact List.Pairwise.nil
      · dsimp only
        exact List.Pairwise.sublist (List.take_sublist _ _)
          (pairwise_sortByKeyDesc (fun m : MatchRes => m.confidence) _)
  · intro key l
    exact sortByKeyDesc_perm key l
  · intro key c l h
    exact sortByKeyDesc_const_key key c l h

/-- Witness for C9 amended at the concrete tie state. -/
theorem C9_amended_sort_stable_witness :
    (List.Pairwise (fun a b => b.confidence ≤ a.confidence)
      ((determineOutcome {} c9state).suggested_matches) ∧
    ((determineOutcome {} c9state).suggested_matches).length ≤
      ({} : MatcherSettings).max_alternative_matches) ∧
    sortByKeyDesc (fun x => x.confidence) [c9sugA, c9sugB] =
      [c9sugA, c9sugB] :=
  ⟨C9_amended_sort_stable.1 {} c9state rfl,
   C9_amended_sort_stable.2.2.2 (fun x => x.confidence) (mkRat 7 10)
     [c9sugA, c9sugB] (by decide)⟩

end MusicPub
